import Mathlib

/-!
Verification of the BOTCHA python client (`packages/python/src/botcha/client.py`)
and verifier (`packages/python-verify/src/botcha_verify/verify.py`).

The client is embedded as explicit state passing over a `Session` record plus a
network oracle; each network primitive consumes the next oracle response and is
recorded in a trace.  Python exceptions are embedded as `Except PyErr`; Python
floats (`time.time()` values, JSON numbers) are embedded as rationals.
-/

namespace Botcha

/-- The double-quote character. -/
def dqc : Char := Char.ofNat 34

/-- The single-quote (apostrophe) character. -/
def sqc : Char := Char.ofNat 39

/-- The opening-brace character. -/
def lbr : Char := Char.ofNat 123

/-- The closing-brace character. -/
def rbr : Char := Char.ofNat 125

/-- Double quote as a one-character string. -/
def dq : String := String.singleton dqc

/-- Apostrophe as a one-character string. -/
def sq : String := String.singleton sqc

/-- JSON values, as produced by `response.json()` / `json.loads`. -/
inductive JVal where
  | null : JVal
  | bool (b : Bool) : JVal
  | num (q : ℚ) : JVal
  | str (s : String) : JVal
  | arr (xs : List JVal) : JVal
  | obj (fields : List (String × JVal)) : JVal

/-- Key lookup in a JSON object (`d[k]` / `d.get(k)` on a dict).  `json.loads`
keeps the last of duplicate keys, so the last binding wins. -/
def JVal.lookup : JVal → String → Option JVal
  | .obj fields, k => (fields.reverse.find? (fun p => p.1 = k)).map (·.2)
  | _, _ => none

/-- Python truthiness of a JSON value. -/
def JVal.truthy : JVal → Bool
  | .null => false
  | .bool b => b
  | .num q => q ≠ 0
  | .str s => s ≠ ""
  | .arr xs => ¬ xs.isEmpty
  | .obj fields => ¬ fields.isEmpty

/-- Whether `pat` occurs as a contiguous substring of `s` (Python `pat in s` on strings). -/
def strContains (s pat : String) : Bool := go s.data
where
  go : List Char → Bool
    | [] => pat.data.isEmpty
    | c :: rest => pat.data.isPrefixOf (c :: rest) || go rest

/-- Embedded Python exceptions. -/
inductive PyErr where
  | typeError : PyErr
  | keyError : PyErr
  | jsonDecodeError : PyErr
  | binasciiError : PyErr
  | unicodeDecodeError : PyErr
  | valueError (msg : String) : PyErr
  | httpStatusError (status : Nat) : PyErr
  | attributeError : PyErr
deriving DecidableEq

/-- Python `k in v` for a string key `k`: key test on dicts, membership on
lists, substring test on strings, `TypeError` on non-containers. -/
def pyIn (k : String) : JVal → Except PyErr Bool
  | .obj fields => .ok (fields.any (fun p => p.1 = k))
  | .arr xs => .ok (xs.any (fun x => match x with | .str s => s = k | _ => false))
  | .str s => .ok (strContains s k)
  | _ => .error .typeError

/-- Python `v[k]` for a string key `k`: dict lookup (`KeyError` when absent),
`TypeError` on strings/lists (string indices must be integers) and on
non-subscriptable values. -/
def pySubscript (v : JVal) (k : String) : Except PyErr JVal :=
  match v with
  | .obj _ =>
    match v.lookup k with
    | some x => .ok x
    | none => .error .keyError
  | _ => .error .typeError

/-- Python `float(v)` on a JSON value, restricted to the numeric cases: numbers
are returned as-is, booleans as 0/1; `None`, lists and dicts raise `TypeError`.
Numeric strings (`float("12.5")`) are accepted via a decimal parser; other
strings raise `ValueError`. -/
def pyFloat (v : JVal) : Except PyErr ℚ :=
  match v with
  | .num q => .ok q
  | .bool b => .ok (if b then 1 else 0)
  | .str s =>
    match floatOfString s.data with
    | some q => .ok q
    | none => .error (.valueError "could not convert string to float")
  | _ => .error .typeError
where
  /-- Decimal string parser for `float(str)`: optional sign, digits with an
  optional fractional part and exponent.  (`inf`/`nan` and exotic spellings are
  not representable as rationals and are treated as unconvertible.) -/
  floatOfString (cs : List Char) : Option ℚ :=
    let cs := cs.dropWhile (fun c => c = ' ')
    let cs := (cs.reverse.dropWhile (fun c => c = ' ')).reverse
    match cs with
    | '-' :: rest => (unsignedFloat rest).map (fun q => -q)
    | '+' :: rest => unsignedFloat rest
    | _ => unsignedFloat cs
  unsignedFloat (cs : List Char) : Option ℚ :=
    let intPart := cs.takeWhile Char.isDigit
    let rest := cs.dropWhile Char.isDigit
    let (fracPart, rest2) :=
      match rest with
      | '.' :: r => (r.takeWhile Char.isDigit, r.dropWhile Char.isDigit)
      | _ => ([], rest)
    let expOk : Option ℤ :=
      match rest2 with
      | [] => some 0
      | 'e' :: r => expOf r
      | 'E' :: r => expOf r
      | _ => none
    if intPart.isEmpty ∧ fracPart.isEmpty then none
    else
      match expOk with
      | none => none
      | some e =>
        let allDigits := digitsVal (intPart ++ fracPart)
        let eAdj : ℤ := e - fracPart.length
        some (if 0 ≤ eAdj then ((allDigits * 10 ^ eAdj.toNat : ℕ) : ℚ)
          else mkRat allDigits (10 ^ (-eAdj).toNat))
  expOf (cs : List Char) : Option ℤ :=
    match cs with
    | '-' :: r => if r ≠ [] ∧ r.all Char.isDigit then some (-(digitsVal r : ℤ)) else none
    | '+' :: r => if r ≠ [] ∧ r.all Char.isDigit then some (digitsVal r : ℤ) else none
    | r => if r ≠ [] ∧ r.all Char.isDigit then some (digitsVal r : ℤ) else none
  digitsVal (cs : List Char) : ℕ :=
    cs.foldl (fun acc c => acc * 10 + (c.toNat - 48)) 0

/-- Python `int(v)` on a JSON value (as used by PyJWT on the `exp` claim):
numbers truncate toward zero, booleans map to 0/1, decimal-integer strings
parse; everything else fails. -/
def pyInt (v : JVal) : Option ℤ :=
  match v with
  | .num q => some (if q ≥ 0 then ⌊q⌋ else -⌊-q⌋)
  | .bool b => some (if b then 1 else 0)
  | .str s =>
    let cs := s.data.dropWhile (fun c => c = ' ')
    let cs := (cs.reverse.dropWhile (fun c => c = ' ')).reverse
    match cs with
    | '-' :: r => if r ≠ [] ∧ r.all Char.isDigit then
        some (-(r.foldl (fun acc c => acc * 10 + (c.toNat - 48)) 0 : ℕ)) else none
    | '+' :: r => if r ≠ [] ∧ r.all Char.isDigit then
        some ((r.foldl (fun acc c => acc * 10 + (c.toNat - 48)) 0 : ℕ)) else none
    | r => if r ≠ [] ∧ r.all Char.isDigit then
        some ((r.foldl (fun acc c => acc * 10 + (c.toNat - 48)) 0 : ℕ)) else none
  | _ => none

/-- Python `str(v)` of a JSON value, used when the code interpolates a claim
value into an error message. -/
def pyStr : JVal → String
  | .null => "None"
  | .bool b => if b then "True" else "False"
  | .num q => if q.den = 1 then toString q.num else toString q
  | .str s => s
  | .arr _ => "[...]"
  | .obj _ => String.singleton lbr ++ "..." ++ String.singleton rbr

/-- Value of a character in the standard base64 alphabet. -/
def b64Val (c : Char) : Option Nat :=
  if 'A' ≤ c ∧ c ≤ 'Z' then some (c.toNat - 65)
  else if 'a' ≤ c ∧ c ≤ 'z' then some (c.toNat - 97 + 26)
  else if '0' ≤ c ∧ c ≤ '9' then some (c.toNat - 48 + 52)
  else if c = '+' then some 62
  else if c = '/' then some 63
  else none

/-- CPython `binascii.a2b_base64` in its default non-strict mode: characters
outside the alphabet are skipped; a pad character at quad position ≥ 2 that
completes a quantum ends decoding; leftover data characters at end of input
raise `binascii.Error`.  State: remaining input, position in the current
quantum (0–3), accumulated bits, pads seen, output bytes (reversed). -/
def a2bBase64Go : List Char → Nat → Nat → Nat → List Nat → Except PyErr (List Nat)
  | [], quadPos, _, _, out =>
    if quadPos = 0 then .ok out.reverse else .error .binasciiError
  | c :: rest, quadPos, acc, pads, out =>
    if c = '=' then
      if 2 ≤ quadPos then
        if 4 ≤ quadPos + pads + 1 then
          if quadPos = 2 then .ok ((acc / 16 :: out)).reverse
          else .ok (((acc / 4) % 256 :: acc / 1024 :: out)).reverse
        else a2bBase64Go rest quadPos acc (pads + 1) out
      else a2bBase64Go rest quadPos acc pads out
    else
      match b64Val c with
      | none => a2bBase64Go rest quadPos acc pads out
      | some v =>
        if quadPos = 3 then
          let acc2 := acc * 64 + v
          a2bBase64Go rest 0 0 pads
            (acc2 % 256 :: (acc2 / 256) % 256 :: acc2 / 65536 :: out)
        else a2bBase64Go rest (quadPos + 1) (acc * 64 + v) pads out

/-- Behavior of `base64.urlsafe_b64decode` on a Python `str` (given as its characters):
encode as ASCII (`ValueError` on non-ASCII), translate the URL-safe alphabet
to the standard one, and run the base64 decoder. -/
def urlsafeB64decode (s : List Char) : Except PyErr (List Nat) :=
  if s.all (fun c => c.toNat ≤ 127) then
    let translated := s.map
      (fun c => if c = '-' then '+' else if c = '_' then '/' else c)
    a2bBase64Go translated 0 0 0 []
  else .error (.valueError "string argument should contain only ASCII characters")

/-- Python `str.split(".")` (single-character separator, empties preserved). -/
def splitDot : List Char → List (List Char)
  | [] => [[]]
  | c :: rest =>
    let r := splitDot rest
    if c = '.' then [] :: r
    else
      match r with
      | h :: t => (c :: h) :: t
      | [] => [[c]]

/-- Strict UTF-8 decoding of a byte sequence (as `bytes.decode("utf-8")`):
rejects overlong forms, surrogates and out-of-range code points. -/
def utf8Decode : List Nat → Option (List Char)
  | [] => some []
  | b :: rest =>
    if b < 128 then
      (utf8Decode rest).map (fun cs => Char.ofNat b :: cs)
    else if 194 ≤ b ∧ b ≤ 223 then
      match rest with
      | c1 :: rest2 =>
        if 128 ≤ c1 ∧ c1 ≤ 191 then
          (utf8Decode rest2).map (fun cs => Char.ofNat ((b - 192) * 64 + (c1 - 128)) :: cs)
        else none
      | [] => none
    else if 224 ≤ b ∧ b ≤ 239 then
      match rest with
      | c1 :: c2 :: rest3 =>
        let lo1 := if b = 224 then 160 else 128
        let hi1 := if b = 237 then 159 else 191
        if lo1 ≤ c1 ∧ c1 ≤ hi1 ∧ 128 ≤ c2 ∧ c2 ≤ 191 then
          (utf8Decode rest3).map
            (fun cs => Char.ofNat ((b - 224) * 4096 + (c1 - 128) * 64 + (c2 - 128)) :: cs)
        else none
      | _ => none
    else if 240 ≤ b ∧ b ≤ 244 then
      match rest with
      | c1 :: c2 :: c3 :: rest4 =>
        let lo1 := if b = 240 then 144 else 128
        let hi1 := if b = 244 then 143 else 191
        if lo1 ≤ c1 ∧ c1 ≤ hi1 ∧ 128 ≤ c2 ∧ c2 ≤ 191 ∧ 128 ≤ c3 ∧ c3 ≤ 191 then
          (utf8Decode rest4).map
            (fun cs => Char.ofNat
              ((b - 240) * 262144 + (c1 - 128) * 4096 + (c2 - 128) * 64 + (c3 - 128)) :: cs)
        else none
      | _ => none
    else none

/-- JSON whitespace accepted between tokens by `json.loads`. -/
def jsonWs (c : Char) : Bool := c = ' ' ∨ c = '\t' ∨ c = '\n' ∨ c = '\r'

/-- Skip JSON whitespace. -/
def skipWs (cs : List Char) : List Char := cs.dropWhile jsonWs

/-- Value of a hexadecimal digit. -/
def hexVal (c : Char) : Option Nat :=
  if '0' ≤ c ∧ c ≤ '9' then some (c.toNat - 48)
  else if 'a' ≤ c ∧ c ≤ 'f' then some (c.toNat - 97 + 10)
  else if 'A' ≤ c ∧ c ≤ 'F' then some (c.toNat - 65 + 10)
  else none

/-- Four hex digits, as in a JSON `\uXXXX` escape. -/
def parseHex4 : List Char → Option (Nat × List Char)
  | a :: b :: c :: d :: rest =>
    match hexVal a, hexVal b, hexVal c, hexVal d with
    | some x, some y, some z, some w => some (x * 4096 + y * 256 + z * 16 + w, rest)
    | _, _, _, _ => none
  | _ => none

/-- Body of a JSON string after the opening quote, in strict mode: raw control
characters are rejected; escapes are the JSON ones.  Lone surrogate escapes
(which CPython would keep as surrogate code units) are not representable in
Lean strings and are rejected. -/
def parseJStringGo : Nat → List Char → Option (List Char × List Char)
  | 0, _ => none
  | _, [] => none
  | fuel + 1, c :: rest =>
    if c = dqc then some ([], rest)
    else if c = '\\' then
      match rest with
      | [] => none
      | e :: rest2 =>
        let plain (x : Char) : Option (List Char × List Char) :=
          (parseJStringGo fuel rest2).map (fun p => (x :: p.1, p.2))
        if e = dqc then plain dqc
        else if e = '\\' then plain '\\'
        else if e = '/' then plain '/'
        else if e = 'b' then plain (Char.ofNat 8)
        else if e = 'f' then plain (Char.ofNat 12)
        else if e = 'n' then plain '\n'
        else if e = 'r' then plain (Char.ofNat 13)
        else if e = 't' then plain '\t'
        else if e = 'u' then
          match parseHex4 rest2 with
          | none => none
          | some (n, rest3) =>
            if 55296 ≤ n ∧ n ≤ 56319 then
              match rest3 with
              | s1 :: s2 :: rest4 =>
                if s1 = '\\' ∧ s2 = 'u' then
                  match parseHex4 rest4 with
                  | some (m, rest5) =>
                    if 56320 ≤ m ∧ m ≤ 57343 then
                      (parseJStringGo fuel rest5).map (fun p =>
                        (Char.ofNat (65536 + (n - 55296) * 1024 + (m - 56320)) :: p.1, p.2))
                    else none
                  | none => none
                else none
              | _ => none
            else if 56320 ≤ n ∧ n ≤ 57343 then none
            else (parseJStringGo fuel rest3).map (fun p => (Char.ofNat n :: p.1, p.2))
        else none
    else if c.toNat < 32 then none
    else (parseJStringGo fuel rest).map (fun p => (c :: p.1, p.2))

/-- JSON number grammar: optional minus, integer part without leading zeros,
optional fraction, optional exponent; evaluated exactly as a rational. -/
def parseJNumber (cs : List Char) : Option (ℚ × List Char) :=
  let (negative, cs1) := match cs with
    | '-' :: r => (true, r)
    | _ => (false, cs)
  let intDigits := cs1.takeWhile Char.isDigit
  let cs2 := cs1.dropWhile Char.isDigit
  if intDigits.isEmpty then none
  else if intDigits.length > 1 ∧ intDigits.headI = '0' then none
  else
    let (fracDigits, cs3) := match cs2 with
      | '.' :: r => (r.takeWhile Char.isDigit, r.dropWhile Char.isDigit)
      | _ => ([], cs2)
    if (match cs2 with | '.' :: _ => fracDigits.isEmpty | _ => false) then none
    else
      let expPart : Option (ℤ × List Char) := match cs3 with
        | 'e' :: r => expTail r
        | 'E' :: r => expTail r
        | _ => some (0, cs3)
      match expPart with
      | none => none
      | some (e, cs4) =>
        let allDigits := digits (intDigits ++ fracDigits)
        let eAdj : ℤ := e - fracDigits.length
        let v : ℚ := if 0 ≤ eAdj then ((allDigits * 10 ^ eAdj.toNat : ℕ) : ℚ)
          else mkRat allDigits (10 ^ (-eAdj).toNat)
        some ((if negative then -v else v), cs4)
where
  digits (ds : List Char) : ℕ := ds.foldl (fun acc c => acc * 10 + (c.toNat - 48)) 0
  expTail (r : List Char) : Option (ℤ × List Char) :=
    let (sgn, r1) := match r with
      | '-' :: t => ((-1 : ℤ), t)
      | '+' :: t => ((1 : ℤ), t)
      | _ => ((1 : ℤ), r)
    let ds := r1.takeWhile Char.isDigit
    if ds.isEmpty then none
    else some (sgn * (digits ds : ℤ), r1.dropWhile Char.isDigit)

mutual

/-- One JSON value (recursive descent, fueled). -/
def parseJValue : Nat → List Char → Option (JVal × List Char)
  | 0, _ => none
  | fuel + 1, cs =>
    match skipWs cs with
    | [] => none
    | c :: rest =>
      if c = dqc then
        (parseJStringGo (fuel + 1) rest).map (fun p => (.str (String.mk p.1), p.2))
      else if c = lbr then
        match skipWs rest with
        | c2 :: rest2 =>
          if c2 = rbr then some (.obj [], rest2)
          else parseJMembers fuel (c2 :: rest2) []
        | [] => none
      else if c = '[' then
        match skipWs rest with
        | ']' :: rest2 => some (.arr [], rest2)
        | other => parseJElems fuel other []
      else if ('t' :: 'r' :: 'u' :: 'e' :: []).isPrefixOf (c :: rest) then
        some (.bool true, (c :: rest).drop 4)
      else if ('f' :: 'a' :: 'l' :: 's' :: 'e' :: []).isPrefixOf (c :: rest) then
        some (.bool false, (c :: rest).drop 5)
      else if ('n' :: 'u' :: 'l' :: 'l' :: []).isPrefixOf (c :: rest) then
        some (.null, (c :: rest).drop 4)
      else
        (parseJNumber (c :: rest)).map (fun p => (.num p.1, p.2))

/-- Members of a JSON object after the opening brace (at least one member). -/
def parseJMembers : Nat → List Char → List (String × JVal) → Option (JVal × List Char)
  | 0, _, _ => none
  | fuel + 1, cs, acc =>
    match skipWs cs with
    | [] => none
    | c :: rest =>
      if c = dqc then
        match parseJStringGo fuel rest with
        | none => none
        | some (key, r1) =>
          match skipWs r1 with
          | ':' :: r2 =>
            match parseJValue fuel r2 with
            | none => none
            | some (v, r3) =>
              let acc2 := acc ++ [(String.mk key, v)]
              match skipWs r3 with
              | ',' :: r4 => parseJMembers fuel r4 acc2
              | c2 :: r4 => if c2 = rbr then some (.obj acc2, r4) else none
              | [] => none
          | _ => none
      else none

/-- Elements of a JSON array after the opening bracket (at least one element). -/
def parseJElems : Nat → List Char → List JVal → Option (JVal × List Char)
  | 0, _, _ => none
  | fuel + 1, cs, acc =>
    match parseJValue fuel cs with
    | none => none
    | some (v, r1) =>
      let acc2 := acc ++ [v]
      match skipWs r1 with
      | ',' :: r2 => parseJElems fuel r2 acc2
      | ']' :: r2 => some (.arr acc2, r2)
      | _ => none

end

/-- Behavior of `json.loads` on a text document: one JSON value surrounded only by
whitespace.  (`NaN`/`Infinity`, accepted by CPython, have no rational value and
are treated as parse failures.) -/
def jsonLoadsChars (cs : List Char) : Option JVal :=
  match parseJValue (cs.length + 1) cs with
  | some (v, rest) => if (skipWs rest).isEmpty then some v else none
  | none => none

/-- Behavior of `json.loads` on a `bytes` payload: strict UTF-8 decoding followed by JSON
parsing; a decoding failure raises `UnicodeDecodeError`, a parse failure raises
`json.JSONDecodeError`. -/
def jsonLoadsBytes (bs : List Nat) : Except PyErr JVal :=
  match utf8Decode bs with
  | none => .error .unicodeDecodeError
  | some cs =>
    match jsonLoadsChars cs with
    | some v => .ok v
    | none => .error .jsonDecodeError

/-! ### Client state, network model and effect monad -/

/-- The mutable per-client state of `BotchaClient`: `self._token`,
`self._token_expires_at` and `self._refresh_token`.  The access token is a
string when present (per the `TokenResponse.token: str` contract); the
refresh token is stored as whatever JSON value the server returned, since the
client only ever tests it for truthiness and echoes it back. -/
structure Session where
  token : Option String
  tokenExpiresAt : ℚ
  refreshToken : Option JVal

/-- The client configuration fixed at construction. -/
structure Config where
  baseUrl : String
  autoToken : Bool
  audience : Option String
  appId : Option String

/-- An HTTP response as the client observes it: a status code and the result
of `response.json()` (`none` when the body is not valid JSON). -/
structure Response where
  status : Nat
  body : Option JVal

/-- The network environment: the response to the n-th network call the client
makes, counted across all endpoints. -/
def Oracle := Nat → Response

/-- One network call made by the client, as recorded in the trace. -/
inductive Event where
  | getChallenge (url : String)
  | postVerify (payload : List (String × JVal))
  | postRefresh (refreshTok : JVal)
  | request (method : String) (url : String) (headers : List (String × String))

/-- Result of running a client computation: the value or the Python exception
that escaped, the session state (mutations survive exceptions), the network
call counter, and the trace of network calls made. -/
structure StepResult (α : Type) where
  res : Except PyErr α
  sess : Session
  calls : Nat
  trace : List Event

/-- The client effect monad: oracle reader + session state + call counter +
network trace + Python exceptions. -/
def M (α : Type) : Type := Oracle → Session → Nat → StepResult α

/-- Return a pure value. -/
def mPure (a : α) : M α := fun _ s k => ⟨.ok a, s, k, []⟩

/-- Sequence two computations; an exception skips the continuation but keeps
state mutations and the trace so far. -/
def mBind (x : M α) (f : α → M β) : M β := fun o s k =>
  let r := x o s k
  match r.res with
  | .ok a =>
    let r2 := f a o r.sess r.calls
    ⟨r2.res, r2.sess, r2.calls, r.trace ++ r2.trace⟩
  | .error e => ⟨.error e, r.sess, r.calls, r.trace⟩

instance : Monad M where
  pure := mPure
  bind := mBind

/-- Raise a Python exception. -/
def mThrow (e : PyErr) : M α := fun _ s k => ⟨.error e, s, k, []⟩

/-- Run a pure fallible step. -/
def liftExc (x : Except PyErr α) : M α := fun _ s k => ⟨x, s, k, []⟩

/-- Read the session. -/
def getSession : M Session := fun _ s k => ⟨.ok s, s, k, []⟩

/-- Mutate the session. -/
def modifySession (f : Session → Session) : M Unit := fun _ s k => ⟨.ok (), f s, k, []⟩

/-- Make one network call: consume the next oracle response, record the event. -/
def netCall (ev : Event) : M Response := fun o s k => ⟨.ok (o k), s, k + 1, [ev]⟩

/-- Python `try body except ...`: the handler decides, from the exception, whether it
is caught (and with what recovery) or re-raised. -/
def pyTry (body : M α) (handler : PyErr → Option (M α)) : M α := fun o s k =>
  let r := body o s k
  match r.res with
  | .ok _ => r
  | .error e =>
    match handler e with
    | some h =>
      let r2 := h o r.sess r.calls
      ⟨r2.res, r2.sess, r2.calls, r.trace ++ r2.trace⟩
    | none => r

/-- Behavior of `response.raise_for_status()`: httpx raises `HTTPStatusError` for any
non-2xx status. -/
def raise_for_status (r : Response) : Except PyErr Unit :=
  if 200 ≤ r.status ∧ r.status ≤ 299 then .ok () else .error (.httpStatusError r.status)

/-- Behavior of `response.json()`: the parsed body, or `json.JSONDecodeError`. -/
def responseJson (r : Response) : Except PyErr JVal :=
  match r.body with
  | some v => .ok v
  | none => .error .jsonDecodeError

/-- Python `float + v` (as in `now + verify_data["expires_in"]`): numbers and
booleans are numeric; any other right operand raises `TypeError`. -/
def pyAddNum (v : JVal) : Except PyErr ℚ :=
  match v with
  | .num q => .ok q
  | .bool b => .ok (if b then 1 else 0)
  | _ => .error .typeError

/-- Require a JSON string (values the client passes where a `str` is declared,
e.g. `TokenResponse.token: str`). -/
def jvalStr (v : JVal) : Except PyErr String :=
  match v with
  | .str s => .ok s
  | _ => .error .typeError

/-- The challenge problems as integers, as consumed by the solver. -/
def jvalProblems (v : JVal) : Except PyErr (List ℤ) :=
  match v with
  | .arr xs => xs.mapM (fun x => match x with
      | .num q => Except.ok ⌊q⌋
      | _ => Except.error PyErr.typeError)
  | _ => .error .typeError

/-- Lowercase hexadecimal digit. -/
def hexDigit (n : Nat) : Char :=
  if n < 10 then Char.ofNat (48 + n) else Char.ofNat (97 + n - 10)

/-- Eight lowercase hexadecimal characters of a number below 2^32. -/
def hex8 (n : Nat) : String :=
  String.mk ((List.range 8).map (fun i => hexDigit (n / 16 ^ (7 - i) % 16)))

/-- Modelled from the spec: `botcha/solver.py` (the `solve_botcha` function the
client imports) is not among the provided sources.  Per spec §4.1 the solver is
a pure, deterministic map sending each numeric puzzle to an 8-character
lowercase hexadecimal fingerprint, one output per input, in order; the exact
one-way function is an external contract with the issuer.  We embed a concrete
function of that shape. -/
def solve_botcha (problems : List ℤ) : List String :=
  problems.map (fun n => hex8 (n.natAbs % 4294967296))

/-! ### The client operations -/

/-- Python truthiness of an optional string (Python `if self.app_id:`). -/
def optTruthy : Option String → Bool
  | some s => s ≠ ""
  | none => false

/-- The URL requested for a challenge (client.py lines 114–116). -/
def tokenUrl (c : Config) : String :=
  c.baseUrl ++ "/v1/token" ++
    (match c.appId with
     | some a => if a ≠ "" then "?app_id=" ++ a else ""
     | none => "")

/-- client.py lines 163–189: with no `expires_in` in the verify response, the
expiry is parsed out of the token itself — split on dots, take the second
part, restore `=` padding to a multiple of 4, base64url-decode, JSON-parse,
read `exp` as an absolute epoch — and any failure (or a missing `exp`, or
fewer than two parts) falls back to `now + 300`. -/
def jwtFallbackExpiry (token : String) (now : ℚ) : ℚ :=
  let attempt : Except PyErr ℚ :=
    match splitDot token.data with
    | _ :: payloadB64 :: _ =>
      let padding := 4 - (payloadB64.length % 4)
      let padded := if padding ≠ 4 then
          payloadB64 ++ List.replicate padding '='
        else payloadB64
      match urlsafeB64decode padded with
      | .error e => .error e
      | .ok payloadBytes =>
        match jsonLoadsBytes payloadBytes with
        | .error e => .error e
        | .ok payload =>
          match pyIn "exp" payload with
          | .error e => .error e
          | .ok hasExp =>
            if hasExp then
              match pySubscript payload "exp" with
              | .error e => .error e
              | .ok expVal => pyFloat expVal
            else .ok (now + 300)
    | _ => .ok (now + 300)
  match attempt with
  | .ok e => e
  | .error _ => now + 300

/-- The body POSTed to `/v1/token/verify` (client.py lines 132–136): challenge
id and answers, plus the audience and app id when configured (truthy). -/
def verifyPayloadFor (c : Config) (cid : JVal) (solutions : List String) :
    List (String × JVal) :=
  [("id", cid), ("answers", JVal.arr (solutions.map JVal.str))] ++
  (match c.audience with
   | some a => if a ≠ "" then [("audience", JVal.str a)] else []
   | none => []) ++
  (match c.appId with
   | some a => if a ≠ "" then [("app_id", JVal.str a)] else []
   | none => [])

/-- The challenge flow of `get_token` (client.py lines 113–191), run on a
cache miss: GET the challenge, solve it, POST the solutions, cache the token,
the refresh token and the expiry. -/
def acquireFlow (c : Config) (now : ℚ) : M String := do
  let challengeResponse ← netCall (.getChallenge (tokenUrl c))
  liftExc (raise_for_status challengeResponse)
  let challengeData ← liftExc (responseJson challengeResponse)
  let cid ← liftExc (pySubscript challengeData "id")
  let problemsJ ← liftExc (pySubscript challengeData "problems")
  let _timeLimit ← liftExc (pySubscript challengeData "timeLimit")
  let problems ← liftExc (jvalProblems problemsJ)
  let solutions := solve_botcha problems
  let verifyResponse ← netCall (.postVerify (verifyPayloadFor c cid solutions))
  liftExc (raise_for_status verifyResponse)
  let verifyData ← liftExc (responseJson verifyResponse)
  let _verified ← liftExc (pySubscript verifyData "verified")
  let tokenJ ← liftExc (pySubscript verifyData "token")
  let _solveTimeMs ← liftExc (pySubscript verifyData "solveTimeMs")
  let token ← liftExc (jvalStr tokenJ)
  modifySession (fun s => { s with token := some token })
  let hasRefresh ← liftExc (pyIn "refresh_token" verifyData)
  (if hasRefresh then do
    let rt ← liftExc (pySubscript verifyData "refresh_token")
    modifySession (fun s => { s with refreshToken := some rt })
  else pure ())
  let hasExpIn ← liftExc (pyIn "expires_in" verifyData)
  (if hasExpIn then do
    let v ← liftExc (pySubscript verifyData "expires_in")
    let q ← liftExc (pyAddNum v)
    modifySession (fun s => { s with tokenExpiresAt := now + q })
  else
    modifySession (fun s => { s with tokenExpiresAt := jwtFallbackExpiry token now }))
  pure token

/-- Method `BotchaClient.get_token` (client.py lines 90–191): return the cached token
while it is truthy and expires strictly more than 300 seconds from now,
otherwise run the challenge flow. -/
def get_token (c : Config) (now : ℚ) : M String := do
  let s ← getSession
  match s.token with
  | some t =>
    if t ≠ "" ∧ now + 300 < s.tokenExpiresAt then pure t
    else acquireFlow c now
  | none => acquireFlow c now

/-- Method `BotchaClient.refresh_token` (client.py lines 193–230): `ValueError` when
no (truthy) refresh token is cached; otherwise POST the refresh token, replace
the access token, and set its expiry from `expires_in` (defaulting to 300s).
The refresh token itself is never written. -/
def refresh_token (_c : Config) (now : ℚ) : M String := do
  let s ← getSession
  match s.refreshToken with
  | none => mThrow (.valueError "No refresh token available")
  | some rt =>
    if ¬ rt.truthy then mThrow (.valueError "No refresh token available")
    else do
      let refreshResponse ← netCall (.postRefresh rt)
      liftExc (raise_for_status refreshResponse)
      let refreshData ← liftExc (responseJson refreshResponse)
      let atJ ← liftExc (pySubscript refreshData "access_token")
      let accessToken ← liftExc (jvalStr atJ)
      modifySession (fun s => { s with token := some accessToken })
      let hasExpIn ← liftExc (pyIn "expires_in" refreshData)
      (if hasExpIn then do
        let v ← liftExc (pySubscript refreshData "expires_in")
        let q ← liftExc (pyAddNum v)
        modifySession (fun s => { s with tokenExpiresAt := now + q })
      else
        modifySession (fun s => { s with tokenExpiresAt := now + 300 }))
      pure accessToken

/-- Update a header dict entry (Python dict assignment: overwrite in place,
preserving insertion order). -/
def setHeader (hs : List (String × String)) (k v : String) : List (String × String) :=
  if hs.any (fun p => p.1 = k) then hs.map (fun p => if p.1 = k then (k, v) else p)
  else hs ++ [(k, v)]

/-- Behavior of `json.dumps` on a list of plain strings (the solver outputs contain no
characters needing escapes), with CPython's default `", "` separator. -/
def jsonDumpsStrList (xs : List String) : String :=
  "[" ++ String.intercalate ", " (xs.map (fun s => dq ++ s ++ dq)) ++ "]"

/-- Outcome of the 401 recovery block of `fetch`: either an early return (the
refreshed resend came back non-401, client.py line 277) or fall-through to the
403 handler with the current response and headers. -/
inductive AfterAuth where
  | earlyReturn (r : Response)
  | fallthrough (r : Response) (headers : List (String × String))

/-- client.py lines 282–293: clear the entire session, acquire a fresh token
via the full challenge flow, and resend the request once. -/
def fullReacquire (c : Config) (now : ℚ) (url : String)
    (headers : List (String × String)) : M AfterAuth := do
  modifySession (fun _ => ⟨none, 0, none⟩)
  let token ← get_token c now
  let headers2 := setHeader headers "Authorization" ("Bearer " ++ token)
  let resp ← netCall (.request "GET" url headers2)
  pure (.fallthrough resp headers2)

/-- client.py lines 264–293: on a 401 with auto_token, try the refresh token
first (any exception is swallowed); a successful refresh resend that is no
longer 401 returns early; otherwise fall back to a full reacquisition. -/
def fetchHandle401 (c : Config) (now : ℚ) (url : String)
    (headers : List (String × String)) (response : Response) : M AfterAuth :=
  if response.status = 401 ∧ c.autoToken = true then do
    let s ← getSession
    let att ← (match s.refreshToken with
      | some rt =>
        if rt.truthy then
          pyTry (do
            let token ← refresh_token c now
            let headers2 := setHeader headers "Authorization" ("Bearer " ++ token)
            let resp2 ← netCall (.request "GET" url headers2)
            pure (some (resp2, headers2)))
            (fun _ => some (pure none))
        else pure none
      | none => pure none)
    match att with
    | some (resp2, headers2) =>
      if resp2.status ≠ 401 then pure (.earlyReturn resp2)
      else fullReacquire c now url headers2
    | none => fullReacquire c now url headers
  else pure (.fallthrough response headers)

/-- client.py lines 296–314: on a (fall-through) 403, try to parse an inline
challenge out of the body and resend once with challenge headers; only
`json.JSONDecodeError` and `KeyError` are caught (yielding the original
response) — any other exception propagates out of `fetch`. -/
def fetchHandle403 (c : Config) (url : String) (after : AfterAuth) : M Response :=
  match after with
  | .earlyReturn r => mPure r
  | .fallthrough response headers =>
    if response.status = 403 then
      pyTry (do
        let body ← liftExc (responseJson response)
        let hasChallenge ← liftExc (pyIn "challenge" body)
        let hit ← (if hasChallenge then do
            let ch ← liftExc (pySubscript body "challenge")
            let hasProblems ← liftExc (pyIn "problems" ch)
            pure (if hasProblems then some ch else none)
          else pure none)
        match hit with
        | some challenge => do
          let problemsJ ← liftExc (pySubscript challenge "problems")
          let problems ← liftExc (jvalProblems problemsJ)
          let solutions := solve_botcha problems
          let cidJ ← liftExc (pySubscript challenge "id")
          let cid ← liftExc (jvalStr cidJ)
          let h1 := setHeader headers "X-Botcha-Challenge-Id" cid
          let h2 := setHeader h1 "X-Botcha-Answers" (jsonDumpsStrList solutions)
          let h3 := (match c.appId with
            | some a => if a ≠ "" then setHeader h2 "X-Botcha-App-Id" a else h2
            | none => h2)
          netCall (.request "GET" url h3)
        | none => pure response)
        (fun e => if e = .jsonDecodeError ∨ e = .keyError then some (mPure response) else none)
    else mPure response

/-- Method `BotchaClient.fetch` (client.py lines 232–316). -/
def fetch (c : Config) (now : ℚ) (url : String)
    (headers0 : List (String × String)) : M Response := do
  let headers ← (if c.autoToken then do
      let token ← get_token c now
      pure (setHeader headers0 "Authorization" ("Bearer " ++ token))
    else pure headers0)
  let response ← netCall (.request "GET" url headers)
  let after ← fetchHandle401 c now url headers response
  fetchHandle403 c url after

/-! ### The verifier (`botcha_verify/verify.py`) -/

/-- Dict lookup in a claim set (last binding wins, as in a Python dict built
by `json.loads`). -/
def claimsGet (claims : List (String × JVal)) (k : String) : Option JVal :=
  (claims.reverse.find? (fun p => p.1 = k)).map (fun p => p.2)

/-- A JWT as seen through PyJWT's `decode`: either structurally malformed
(carrying the `DecodeError` message PyJWT would produce, e.g. `"Not enough
segments"`), or a well-formed HS256 token carrying a claim set and signed with
a given secret.  HMAC-SHA256 signature checking is embedded as equality of the
signing and verifying secrets. -/
inductive JwtToken where
  | malformed (msg : String)
  | signed (secret : String) (claims : List (String × JVal))

/-- Errors out of the embedded `jwt.decode`, grouped the way
`verify_botcha_token`'s handlers distinguish them: `ExpiredSignatureError`
(matched first), any other `InvalidTokenError` subclass, and non-JWT
exceptions that reach the generic `except Exception` handler. -/
inductive JwtError where
  | expiredSignature (msg : String)
  | invalidTok (msg : String)
  | generic (msg : String)

/-- PyJWT's `int(payload[name])` on a timing claim: numbers truncate, numeric
strings parse; a non-numeric string raises `ValueError`, converted by PyJWT to
an `InvalidTokenError` with the given message, while `None`/lists/dicts raise
`TypeError`, which escapes `jwt.decode` to the generic handler. -/
def intClaim (v : JVal) (failMsg : String) : Except JwtError ℤ :=
  match pyInt v with
  | some n => .ok n
  | none =>
    match v with
    | .str _ => .error (.invalidTok failMsg)
    | _ => .error (.generic
        "int() argument must be a string, a bytes-like object or a real number")

/-- PyJWT 2.x `_validate_aud`: with no `audience` argument a (truthy) `aud`
claim is itself an error; with an `audience` argument a missing or falsy `aud`
claim is a missing-claim error, a non-string (list-of-strings aside) claim is
a format error, and a mismatch raises `InvalidAudienceError` with the fixed
message `Audience doesn't match` — the claim values are not interpolated. -/
def validateAud (claims : List (String × JVal)) (audience : Option String) :
    Except JwtError Unit :=
  let audClaim := claimsGet claims "aud"
  match audience with
  | none =>
    match audClaim with
    | none => .ok ()
    | some v => if ¬ v.truthy then .ok () else .error (.invalidTok "Invalid audience")
  | some aud =>
    match audClaim with
    | none => .error (.invalidTok ("Token is missing the " ++ dq ++ "aud" ++ dq ++ " claim"))
    | some v =>
      if ¬ v.truthy then
        .error (.invalidTok ("Token is missing the " ++ dq ++ "aud" ++ dq ++ " claim"))
      else
        match v with
        | .str s =>
          if s = aud then .ok ()
          else .error (.invalidTok ("Audience doesn" ++ sq ++ "t match"))
        | .arr xs =>
          if xs.all (fun x => match x with | .str _ => true | _ => false) then
            if xs.any (fun x => match x with | .str s => s = aud | _ => false) then .ok ()
            else .error (.invalidTok ("Audience doesn" ++ sq ++ "t match"))
          else .error (.invalidTok "Invalid claim format in token")
        | _ => .error (.invalidTok "Invalid claim format in token")

/-- The behavior of `jwt.decode(token, secret, algorithms=["HS256"],
options={"require": [...]}, audience=...)` under PyJWT 2.x, to the extent
`verify_botcha_token` depends on it: signature, required-claims list, the
`iat`/`nbf`/`exp` numeric checks, expiry (zero leeway), then audience, in
PyJWT's validation order and with PyJWT's error messages. -/
def jwtDecode (tok : JwtToken) (secret : String) (now : ℚ)
    (audience : Option String) (requireClaims : List String) :
    Except JwtError (List (String × JVal)) :=
  match tok with
  | .malformed msg => .error (.invalidTok msg)
  | .signed sigSecret claims =>
    if sigSecret ≠ secret then .error (.invalidTok "Signature verification failed")
    else
      match requireClaims.find? (fun cl => (claimsGet claims cl).isNone) with
      | some cl => .error (.invalidTok
          ("Token is missing the " ++ dq ++ cl ++ dq ++ " claim"))
      | none =>
        let iatCheck : Except JwtError Unit :=
          match claimsGet claims "iat" with
          | some v =>
            (match intClaim v "Issued At claim (iat) must be an integer." with
             | .ok _ => .ok ()
             | .error e => .error e)
          | none => .ok ()
        match iatCheck with
        | .error e => .error e
        | .ok _ =>
          let nbfCheck : Except JwtError Unit :=
            match claimsGet claims "nbf" with
            | some v =>
              (match intClaim v "Not Before claim (nbf) must be an integer." with
               | .ok nbf =>
                 if now < (nbf : ℚ) then
                   .error (.invalidTok "The token is not yet valid (nbf)")
                 else .ok ()
               | .error e => .error e)
            | none => .ok ()
          match nbfCheck with
          | .error e => .error e
          | .ok _ =>
            let expCheck : Except JwtError Unit :=
              match claimsGet claims "exp" with
              | some v =>
                (match intClaim v "Expiration Time claim (exp) must be an integer." with
                 | .ok e =>
                   if (e : ℚ) ≤ now then
                     .error (.expiredSignature "Signature has expired")
                   else .ok ()
                 | .error er => .error er)
              | none => .ok ()
            match expCheck with
            | .error e => .error e
            | .ok _ =>
              match validateAud claims audience with
              | .error e => .error e
              | .ok _ => .ok claims

/-- Dataclass `VerifyOptions` (types.py of python-verify). -/
structure VerifyOptions where
  audience : Option String := none
  client_ip : Option String := none

/-- Dataclass `BotchaPayload` (types.py of python-verify): the decoded claim values the
verifier repackages (Python performs no type coercion on them). -/
structure BotchaPayload where
  sub : JVal
  iat : JVal
  exp : JVal
  jti : JVal
  type : JVal
  solve_time : JVal
  aud : Option JVal
  client_ip : Option JVal

/-- Dataclass `VerifyResult` (types.py of python-verify). -/
structure VerifyResult where
  valid : Bool
  payload : Option BotchaPayload := none
  error : Option String := none

/-- Python `str(v)` of an optional claim value, as interpolated into error messages. -/
def optPyStr : Option JVal → String
  | some x => pyStr x
  | none => "None"

/-- The `audience` keyword argument `verify_botcha_token` forwards to
`jwt.decode`: present exactly when the caller supplied a truthy audience
(verify.py lines 45–46). -/
def audienceParam (options : Option VerifyOptions) : Option String :=
  match options with
  | some o =>
    (match o.audience with
     | some a => if a ≠ "" then some a else none
     | none => none)
  | none => none

/-- Function `verify_botcha_token` (verify.py lines 9–88): decode with required claims
`sub, iat, exp, jti` (audience forwarded when the caller supplies a truthy
one), then check the token type and the optional client-IP binding, and
return a structured result; every decode exception is converted into an
invalid result via the three `except` clauses. -/
def verify_botcha_token (token : JwtToken) (secret : String)
    (options : Option VerifyOptions) (now : ℚ) : VerifyResult :=
  match jwtDecode token secret now (audienceParam options)
      ["sub", "iat", "exp", "jti"] with
  | .error (.expiredSignature _) => ⟨false, none, some "Token has expired"⟩
  | .error (.invalidTok m) => ⟨false, none, some ("Invalid token: " ++ m)⟩
  | .error (.generic m) => ⟨false, none, some ("Token verification failed: " ++ m)⟩
  | .ok payload =>
    let tokenType := claimsGet payload "type"
    let typeOk : Bool := match tokenType with
      | some (.str s) => s = "botcha-verified"
      | _ => false
    if ¬ typeOk then
      ⟨false, none, some ("Invalid token type: expected " ++ sq ++ "botcha-verified" ++
        sq ++ ", got " ++ sq ++ optPyStr tokenType ++ sq)⟩
    else
      let ipError : Option String :=
        match options with
        | some o =>
          (match o.client_ip with
           | some ip =>
             if ip ≠ "" then
               let tokenIp := claimsGet payload "client_ip"
               let ipOk : Bool := match tokenIp with
                 | some (.str s) => s ≠ "" ∧ s = ip
                 | _ => false
               if ¬ ipOk then
                 some ("Client IP mismatch: expected " ++ sq ++ ip ++ sq ++
                   ", got " ++ sq ++ optPyStr tokenIp ++ sq)
               else none
             else none
           | none => none)
        | none => none
      match ipError with
      | some msg => ⟨false, none, some msg⟩
      | none =>
        ⟨true, some
          { sub := (claimsGet payload "sub").getD .null
            iat := (claimsGet payload "iat").getD .null
            exp := (claimsGet payload "exp").getD .null
            jti := (claimsGet payload "jti").getD .null
            type := (claimsGet payload "type").getD .null
            solve_time := (claimsGet payload "solveTime").getD (.num 0)
            aud := claimsGet payload "aud"
            client_ip := claimsGet payload "client_ip" }, none⟩

/-! ### Spec-side definitions (from the claim wording, for refinement) -/

/-- From the claim wording of C7: the absolute epoch value of the `exp` claim
decoded from the token's middle dot-separated segment, base64url with `=`
padding restored to a multiple of 4; `none` when any of that fails or the
claim is absent. -/
def specJwtExp (token : String) : Option ℚ :=
  match splitDot token.data with
  | _ :: seg :: _ =>
    let padded := if seg.length % 4 ≠ 0 then
        seg ++ List.replicate (4 - seg.length % 4) '='
      else seg
    match urlsafeB64decode padded with
    | .ok bytes =>
      (match jsonLoadsBytes bytes with
       | .ok payload =>
         (match payload.lookup "exp" with
          | some expVal =>
            (match pyFloat expVal with
             | .ok q => some q
             | .error _ => none)
          | none => none)
       | .error _ => none)
    | .error _ => none
  | _ => none

/-- From the claim wording of C7: the cached expiry after a successful
exchange — `now + expires_in` when stated, else the token's own `exp`, else
`now + 300`. -/
def specTokenExpiry (expiresIn : Option ℚ) (token : String) (now : ℚ) : ℚ :=
  match expiresIn with
  | some q => now + q
  | none =>
    match specJwtExp token with
    | some e => e
    | none => now + 300

/-- Holds of an event unless it is a caller-URL request with a method other
than GET. -/
def eventGET : Event → Bool
  | .request m _ _ => m == "GET"
  | _ => true

/-- Every execution of the computation, under every oracle, session and call
counter, records only GET requests. -/
def TraceGET (x : M α) : Prop :=
  ∀ o s k, ((x o s k).trace).all eventGET = true

/-- The claim set of the C6 counterexample token: well-formed, correctly
signed, unexpired, of the right type, but carrying audience
`https://token-aud.example`. -/
def c6Claims : List (String × JVal) :=
  [("sub", .str "ch-1"), ("iat", .num 1000), ("exp", .num 4000),
   ("jti", .str "jti-1"), ("type", .str "botcha-verified"),
   ("aud", .str "https://token-aud.example")]

/-- Network responses for the C7 witness: a challenge, then a verify response
with no `expires_in` whose token's middle segment is
`base64url({"exp":1700000600})`. -/
def c7Oracle : Oracle := fun n =>
  if n = 0 then
    ⟨200, some (.obj [("id", .str "c1"), ("problems", .arr [.num 123456]),
      ("timeLimit", .num 500)])⟩
  else
    ⟨200, some (.obj [("verified", .bool true),
      ("token", .str "hh.eyJleHAiOjE3MDAwMDA2MDB9.sig"),
      ("solveTimeMs", .num 42)])⟩

/-- Network responses for the C1 counterexample: two full challenge/verify
exchanges; both verify responses state `expires_in = 300` (the nominal
5-minute access-token lifetime), the second carrying a different token. -/
def c1Oracle : Oracle := fun n =>
  if n = 0 then
    ⟨200, some (.obj [("id", .str "c1"), ("problems", .arr [.num 111111]),
      ("timeLimit", .num 500)])⟩
  else if n = 1 then
    ⟨200, some (.obj [("verified", .bool true), ("token", .str "tokenA"),
      ("solveTimeMs", .num 42), ("expires_in", .num 300)])⟩
  else if n = 2 then
    ⟨200, some (.obj [("id", .str "c2"), ("problems", .arr [.num 222222]),
      ("timeLimit", .num 500)])⟩
  else
    ⟨200, some (.obj [("verified", .bool true), ("token", .str "tokenB"),
      ("solveTimeMs", .num 42), ("expires_in", .num 300)])⟩

/-- The 403 response of the C4 failing input: valid JSON, but the `challenge`
field is the number 5 rather than an object. -/
def c4Oracle : Oracle := fun _ => ⟨403, some (.obj [("challenge", .num 5)])⟩

/-- Network responses for the C3 witness: a 401, then a successful refresh,
then a 200. -/
def c3wOracle : Oracle := fun n =>
  if n = 0 then ⟨401, none⟩
  else if n = 1 then
    ⟨200, some (.obj [("access_token", .str "newTok"), ("expires_in", .num 600)])⟩
  else ⟨200, none⟩


/-! ### Run lemmas for the effect monad -/

theorem bind_eq (x : M α) (f : α → M β) : x >>= f = mBind x f := rfl

theorem pure_eq (a : α) : (pure a : M α) = mPure a := rfl

theorem raise_for_status_ok (r : Response) (h : 200 ≤ r.status ∧ r.status ≤ 299) :
    raise_for_status r = .ok () := by
  simp [raise_for_status, h.1, h.2]

theorem raise_for_status_err (r : Response) (h : ¬ (200 ≤ r.status ∧ r.status ≤ 299)) :
    raise_for_status r = .error (.httpStatusError r.status) := by
  simp only [raise_for_status, if_neg h]

/-- C8 helper (also the claim's theorem): with no cached refresh token,
`refresh_token` raises `ValueError` immediately: no network call, no trace,
and the session is returned untouched. -/
theorem refresh_token_none (c : Config) (now : ℚ) (o : Oracle) (s : Session)
    (k : ℕ) (h : s.refreshToken = none) :
    refresh_token c now o s k =
      ⟨.error (.valueError "No refresh token available"), s, k, []⟩ := by
  simp [refresh_token, bind_eq, mBind, getSession, mThrow, h]

/-- A cache hit: a truthy cached token whose recorded expiry is strictly more
than 300 seconds away is returned as-is, with no state change and no network
call. -/
theorem get_token_hit (c : Config) (now : ℚ) (o : Oracle) (s : Session) (k : ℕ)
    (t : String) (ht : s.token = some t) (hne : t ≠ "")
    (hexp : now + 300 < s.tokenExpiresAt) :
    get_token c now o s k = ⟨.ok t, s, k, []⟩ := by
  simp [get_token, bind_eq, mBind, getSession, ht, hne, hexp, pure_eq, mPure]

/-- The challenge flow always opens with the challenge GET. -/
theorem acquireFlow_trace_cons (c : Config) (now : ℚ) (o : Oracle) (s : Session)
    (k : ℕ) :
    ∃ rest, (acquireFlow c now o s k).trace =
      Event.getChallenge (tokenUrl c) :: rest := by
  simp only [acquireFlow, bind_eq, mBind, netCall]
  exact ⟨_, rfl⟩

/-- A cache miss (stale expiry) enters the challenge flow. -/
theorem get_token_miss (c : Config) (now : ℚ) (o : Oracle) (s : Session) (k : ℕ)
    (h : ¬ (optTruthy s.token = true ∧ now + 300 < s.tokenExpiresAt)) :
    get_token c now o s k = acquireFlow c now o s k := by
  match hs : s.token with
  | none =>
    simp [get_token, bind_eq, mBind, getSession, hs, acquireFlow]
  | some t =>
    rw [hs] at h
    simp only [optTruthy] at h
    by_cases hne : t = ""
    · subst hne
      simp [get_token, bind_eq, mBind, getSession, hs]
    · have hexp : ¬ (now + 300 < s.tokenExpiresAt) := by
        intro hc
        exact h ⟨by simp [hne], hc⟩
      simp [get_token, bind_eq, mBind, getSession, hs, hne, hexp]

/-- Full run of the challenge flow on a well-formed pair of issuer responses:
the token from the verify body is cached and returned, the refresh token is
stored when present, the expiry follows `expires_in` with the JWT-payload
fallback, and the trace is exactly one challenge GET followed by one verify
POST. -/
theorem acquireFlow_run
    (c : Config) (now : ℚ) (o : Oracle) (s : Session) (k : ℕ)
    (st1 st2 : ℕ) (cb vb cidV probsV tlV vvV stmV : JVal)
    (probs : List ℤ) (newTok : String) (rtv : Option JVal) (ei : Option ℚ)
    (h1 : o k = ⟨st1, some cb⟩) (h1s : 200 ≤ st1 ∧ st1 ≤ 299)
    (hcid : pySubscript cb "id" = .ok cidV)
    (hpr : pySubscript cb "problems" = .ok probsV)
    (htl : pySubscript cb "timeLimit" = .ok tlV)
    (hprobs : jvalProblems probsV = .ok probs)
    (h2 : o (k + 1) = ⟨st2, some vb⟩) (h2s : 200 ≤ st2 ∧ st2 ≤ 299)
    (hvv : pySubscript vb "verified" = .ok vvV)
    (htok : pySubscript vb "token" = .ok (.str newTok))
    (hstm : pySubscript vb "solveTimeMs" = .ok stmV)
    (hrt1 : pyIn "refresh_token" vb = .ok rtv.isSome)
    (hrt2 : ∀ rv, rtv = some rv → pySubscript vb "refresh_token" = .ok rv)
    (hei1 : pyIn "expires_in" vb = .ok ei.isSome)
    (hei2 : ∀ q, ei = some q → pySubscript vb "expires_in" = .ok (.num q)) :
    acquireFlow c now o s k =
      ⟨.ok newTok,
       ⟨some newTok,
        (match ei with
         | some q => now + q
         | none => jwtFallbackExpiry newTok now),
        (match rtv with
         | some rv => some rv
         | none => s.refreshToken)⟩,
       k + 2,
       [.getChallenge (tokenUrl c),
        .postVerify (verifyPayloadFor c cidV (solve_botcha probs))]⟩ := by
  have hr1 := raise_for_status_ok ⟨st1, some cb⟩ h1s
  have hr2 := raise_for_status_ok ⟨st2, some vb⟩ h2s
  match hrv : rtv, hev : ei with
  | none, none =>
    simp only [hrv, hev, Option.isSome_none] at hrt1 hei1
    simp [acquireFlow, bind_eq, mBind, netCall, liftExc, modifySession, pure_eq,
      mPure, h1, h2, hr1, hr2, responseJson, hcid, hpr, htl, hprobs, hvv, htok,
      hstm, hrt1, hei1, jvalStr]
  | none, some q =>
    simp only [hrv, hev, Option.isSome_none, Option.isSome_some] at hrt1 hei1
    have hq := hei2 q rfl
    simp [acquireFlow, bind_eq, mBind, netCall, liftExc, modifySession, pure_eq,
      mPure, h1, h2, hr1, hr2, responseJson, hcid, hpr, htl, hprobs, hvv, htok,
      hstm, hrt1, hei1, hq, jvalStr, pyAddNum]
  | some rv, none =>
    simp only [hrv, hev, Option.isSome_none, Option.isSome_some] at hrt1 hei1
    have hrv2 := hrt2 rv rfl
    simp [acquireFlow, bind_eq, mBind, netCall, liftExc, modifySession, pure_eq,
      mPure, h1, h2, hr1, hr2, responseJson, hcid, hpr, htl, hprobs, hvv, htok,
      hstm, hrt1, hei1, hrv2, jvalStr]
  | some rv, some q =>
    simp only [hrv, hev, Option.isSome_some] at hrt1 hei1
    have hrv2 := hrt2 rv rfl
    have hq := hei2 q rfl
    simp [acquireFlow, bind_eq, mBind, netCall, liftExc, modifySession, pure_eq,
      mPure, h1, h2, hr1, hr2, responseJson, hcid, hpr, htl, hprobs, hvv, htok,
      hstm, hrt1, hei1, hrv2, hq, jvalStr, pyAddNum]

/-- On an object, the Python `in` test answers exactly whether dict lookup
succeeds. -/
theorem pyIn_obj (k : String) (fs : List (String × JVal)) :
    pyIn k (.obj fs) = .ok ((JVal.lookup (.obj fs) k).isSome) := by
  simp only [pyIn, JVal.lookup, Except.ok.injEq]
  rw [Bool.eq_iff_iff]
  simp [List.find?_isSome, List.any_eq_true]

/-- The expiry chosen by the code's `try`-wrapped JWT fallback equals, for
every token, the spec-worded parse of the middle segment with a uniform
`now + 300` default. -/
theorem jwtFallbackExpiry_eq (token : String) (now : ℚ) :
    jwtFallbackExpiry token now =
      (match specJwtExp token with
       | some e => e
       | none => now + 300) := by
  unfold jwtFallbackExpiry specJwtExp
  match hsp : splitDot token.data with
  | [] => simp
  | [x] => simp
  | x :: seg :: rest =>
    have hlt : seg.length % 4 < 4 := Nat.mod_lt _ (by norm_num)
    have hpad : (4 - seg.length % 4 ≠ 4) ↔ (seg.length % 4 ≠ 0) := by omega
    simp only []
    rw [if_congr hpad rfl rfl]
    set padded := (if seg.length % 4 ≠ 0 then
      seg ++ List.replicate (4 - seg.length % 4) '=' else seg) with hp
    cases hb : urlsafeB64decode padded with
    | error e => simp [hb]
    | ok bytes =>
      cases hj : jsonLoadsBytes bytes with
      | error e => simp [hb, hj]
      | ok payload =>
        cases payload with
        | null => simp [hb, hj, pyIn, JVal.lookup]
        | bool b => simp [hb, hj, pyIn, JVal.lookup]
        | num q => simp [hb, hj, pyIn, JVal.lookup]
        | str s =>
          by_cases hc : strContains s "exp" = true
          · simp [hb, hj, pyIn, JVal.lookup, hc, pySubscript]
          · simp [hb, hj, pyIn, JVal.lookup, hc, pySubscript]
        | arr xs =>
          by_cases hc : (xs.any (fun v => match v with
              | .str s => s = "exp" | _ => false)) = true
          · simp [hb, hj, pyIn, JVal.lookup, hc, pySubscript]
          · simp [hb, hj, pyIn, JVal.lookup, hc, pySubscript]
        | obj fields =>
          simp only [hj]
          rw [show pyIn "exp" (.obj fields) =
            .ok ((JVal.lookup (.obj fields) "exp").isSome) from pyIn_obj _ _]
          cases hl : JVal.lookup (.obj fields) "exp" with
          | none => simp [hb, hj, hl, pySubscript]
          | some expVal =>
            cases hf : pyFloat expVal with
            | error e => simp [hb, hj, hl, pySubscript, hf]
            | ok q => simp [hb, hj, hl, pySubscript, hf]

/-- Full run of a successful refresh: the access token is replaced, the
expiry follows `expires_in` with a 300-second default, and the refresh-token
field is returned exactly as it was. -/
theorem refresh_token_run
    (c : Config) (now : ℚ) (o : Oracle) (s : Session) (k : ℕ)
    (rt : JVal) (hrt : s.refreshToken = some rt) (htr : rt.truthy = true)
    (st : ℕ) (rb : JVal) (h1 : o k = ⟨st, some rb⟩) (hst : 200 ≤ st ∧ st ≤ 299)
    (newTok : String) (hat : pySubscript rb "access_token" = .ok (.str newTok))
    (ei : Option ℚ)
    (hei1 : pyIn "expires_in" rb = .ok ei.isSome)
    (hei2 : ∀ q, ei = some q → pySubscript rb "expires_in" = .ok (.num q)) :
    refresh_token c now o s k =
      ⟨.ok newTok,
       ⟨some newTok,
        (match ei with
         | some q => now + q
         | none => now + 300),
        s.refreshToken⟩,
       k + 1, [.postRefresh rt]⟩ := by
  have hr1 := raise_for_status_ok ⟨st, some rb⟩ hst
  match hev : ei with
  | none =>
    simp only [hev, Option.isSome_none] at hei1
    simp [refresh_token, bind_eq, mBind, getSession, netCall, liftExc,
      modifySession, pure_eq, mPure, hrt, htr, h1, hr1, responseJson, hat,
      jvalStr, hei1]
  | some q =>
    simp only [hev, Option.isSome_some] at hei1
    have hq := hei2 q rfl
    simp [refresh_token, bind_eq, mBind, getSession, netCall, liftExc,
      modifySession, pure_eq, mPure, hrt, htr, h1, hr1, responseJson, hat,
      jvalStr, hei1, hq, pyAddNum]

/-- The 403 handler passes an early return through unchanged. -/
theorem fetchHandle403_early (c : Config) (url : String) (r : Response) :
    fetchHandle403 c url (.earlyReturn r) = mPure r := rfl

/-- The 403 handler is a no-op on a fall-through response that is not 403. -/
theorem fetchHandle403_non403 (c : Config) (url : String) (r : Response)
    (hs : List (String × String)) (h : r.status ≠ 403) :
    fetchHandle403 c url (.fallthrough r hs) = mPure r := by
  simp [fetchHandle403, h]

/-- The 401 handler is a no-op unless the response is 401 with auto_token. -/
theorem fetchHandle401_pass (c : Config) (now : ℚ) (url : String)
    (hs : List (String × String)) (r : Response)
    (h : ¬ (r.status = 401 ∧ c.autoToken = true)) :
    fetchHandle401 c now url hs r = mPure (.fallthrough r hs) := by
  simp only [fetchHandle401, if_neg h, pure_eq]

/-- Run of the clear-and-reacquire path: the session is reset, the full
challenge flow runs from scratch, and the request is resent exactly once with
the fresh bearer token. -/
theorem fullReacquire_run
    (c : Config) (now : ℚ) (o : Oracle) (url : String)
    (hs : List (String × String)) (s : Session) (k : ℕ)
    (st1 st2 : ℕ) (cb vb cidV probsV tlV vvV stmV : JVal)
    (probs : List ℤ) (newTok : String) (rtv : Option JVal) (ei : Option ℚ)
    (h1 : o k = ⟨st1, some cb⟩) (h1s : 200 ≤ st1 ∧ st1 ≤ 299)
    (hcid : pySubscript cb "id" = .ok cidV)
    (hpr : pySubscript cb "problems" = .ok probsV)
    (htl : pySubscript cb "timeLimit" = .ok tlV)
    (hprobs : jvalProblems probsV = .ok probs)
    (h2 : o (k + 1) = ⟨st2, some vb⟩) (h2s : 200 ≤ st2 ∧ st2 ≤ 299)
    (hvv : pySubscript vb "verified" = .ok vvV)
    (htok : pySubscript vb "token" = .ok (.str newTok))
    (hstm : pySubscript vb "solveTimeMs" = .ok stmV)
    (hrt1 : pyIn "refresh_token" vb = .ok rtv.isSome)
    (hrt2 : ∀ rv, rtv = some rv → pySubscript vb "refresh_token" = .ok rv)
    (hei1 : pyIn "expires_in" vb = .ok ei.isSome)
    (hei2 : ∀ q, ei = some q → pySubscript vb "expires_in" = .ok (.num q)) :
    fullReacquire c now url hs o s k =
      ⟨.ok (.fallthrough (o (k + 2))
          (setHeader hs "Authorization" ("Bearer " ++ newTok))),
       ⟨some newTok,
        (match ei with
         | some q => now + q
         | none => jwtFallbackExpiry newTok now),
        (match rtv with
         | some rv => some rv
         | none => none)⟩,
       k + 3,
       [.getChallenge (tokenUrl c),
        .postVerify (verifyPayloadFor c cidV (solve_botcha probs)),
        .request "GET" url (setHeader hs "Authorization" ("Bearer " ++ newTok))]⟩ := by
  have hmiss : get_token c now o ⟨none, 0, none⟩ k =
      acquireFlow c now o ⟨none, 0, none⟩ k := by
    apply get_token_miss
    simp [optTruthy]
  have hacq := acquireFlow_run c now o ⟨none, 0, none⟩ k st1 st2 cb vb cidV
    probsV tlV vvV stmV probs newTok rtv ei h1 h1s hcid hpr htl hprobs h2 h2s
    hvv htok hstm hrt1 hrt2 hei1 hei2
  match rtv with
  | none =>
    simp [fullReacquire, bind_eq, mBind, modifySession, hmiss, hacq, netCall,
      pure_eq, mPure]
  | some rv =>
    simp [fullReacquire, bind_eq, mBind, modifySession, hmiss, hacq, netCall,
      pure_eq, mPure]

/-- Run of an errored refresh call (non-2xx refresh response): the exception
carries the status, the session is untouched, one refresh POST was made. -/
theorem refresh_token_err
    (c : Config) (now : ℚ) (o : Oracle) (s : Session) (k : ℕ)
    (rt : JVal) (hrt : s.refreshToken = some rt) (htr : rt.truthy = true)
    (r : Response) (h1 : o k = r) (hbad : ¬ (200 ≤ r.status ∧ r.status ≤ 299)) :
    refresh_token c now o s k =
      ⟨.error (.httpStatusError r.status), s, k + 1, [.postRefresh rt]⟩ := by
  have hr1 := raise_for_status_err r hbad
  simp [refresh_token, bind_eq, mBind, getSession, netCall, liftExc, hrt, htr,
    h1, hr1]

/-- The 401 recovery, scenario: refresh token cached, refresh succeeds, resend no
longer 401 — early return of the resend, exactly one refresh POST and one
resend, session updated only by the refresh. -/
theorem fetchHandle401_refresh_success
    (c : Config) (now : ℚ) (o : Oracle) (url : String)
    (H : List (String × String)) (r0 : Response) (s : Session) (k : ℕ)
    (hauto : c.autoToken = true) (h401 : r0.status = 401)
    (rt : JVal) (hrt : s.refreshToken = some rt) (htr : rt.truthy = true)
    (st : ℕ) (rb : JVal) (h1 : o k = ⟨st, some rb⟩) (hst : 200 ≤ st ∧ st ≤ 299)
    (newTok : String) (hat : pySubscript rb "access_token" = .ok (.str newTok))
    (ei : Option ℚ)
    (hei1 : pyIn "expires_in" rb = .ok ei.isSome)
    (hei2 : ∀ q, ei = some q → pySubscript rb "expires_in" = .ok (.num q))
    (r2 : Response) (h2 : o (k + 1) = r2) (hr2 : r2.status ≠ 401) :
    fetchHandle401 c now url H r0 o s k =
      ⟨.ok (.earlyReturn r2),
       ⟨some newTok,
        (match ei with
         | some q => now + q
         | none => now + 300),
        s.refreshToken⟩,
       k + 2,
       [.postRefresh rt,
        .request "GET" url (setHeader H "Authorization" ("Bearer " ++ newTok))]⟩ := by
  have hrun := refresh_token_run c now o s k rt hrt htr st rb h1 hst newTok hat
    ei hei1 hei2
  simp [fetchHandle401,
    if_pos (show r0.status = 401 ∧ c.autoToken = true from ⟨h401, hauto⟩),
    bind_eq, mBind, getSession, hrt, htr, pyTry, hrun, netCall, pure_eq, mPure,
    h2, hr2]

/-- The 401 recovery, scenario: no (truthy) refresh token — straight to the
clear-and-reacquire path. -/
theorem fetchHandle401_noRefresh
    (c : Config) (now : ℚ) (o : Oracle) (url : String)
    (H : List (String × String)) (r0 : Response) (s : Session) (k : ℕ)
    (hauto : c.autoToken = true) (h401 : r0.status = 401)
    (hrt : s.refreshToken = none ∨
      ∃ rt, s.refreshToken = some rt ∧ rt.truthy = false) :
    fetchHandle401 c now url H r0 o s k = fullReacquire c now url H o s k := by
  rcases hrt with h | ⟨rt, h, htr⟩
  · simp [fetchHandle401,
      if_pos (show r0.status = 401 ∧ c.autoToken = true from ⟨h401, hauto⟩),
      bind_eq, mBind, getSession, h, pure_eq, mPure]
  · simp [fetchHandle401,
      if_pos (show r0.status = 401 ∧ c.autoToken = true from ⟨h401, hauto⟩),
      bind_eq, mBind, getSession, h, htr, pure_eq, mPure]

/-- The 401 recovery, scenario: refresh attempted but the refresh call fails with
a non-2xx status — the exception is swallowed and the clear-and-reacquire
path runs, after the one refresh POST. -/
theorem fetchHandle401_refresh_err
    (c : Config) (now : ℚ) (o : Oracle) (url : String)
    (H : List (String × String)) (r0 : Response) (s : Session) (k : ℕ)
    (hauto : c.autoToken = true) (h401 : r0.status = 401)
    (rt : JVal) (hrt : s.refreshToken = some rt) (htr : rt.truthy = true)
    (r1 : Response) (h1 : o k = r1)
    (hbad : ¬ (200 ≤ r1.status ∧ r1.status ≤ 299)) :
    fetchHandle401 c now url H r0 o s k =
      ⟨(fullReacquire c now url H o s (k + 1)).res,
       (fullReacquire c now url H o s (k + 1)).sess,
       (fullReacquire c now url H o s (k + 1)).calls,
       .postRefresh rt :: (fullReacquire c now url H o s (k + 1)).trace⟩ := by
  have herr := refresh_token_err c now o s k rt hrt htr r1 h1 hbad
  simp [fetchHandle401,
    if_pos (show r0.status = 401 ∧ c.autoToken = true from ⟨h401, hauto⟩),
    bind_eq, mBind, getSession, hrt, htr, pyTry, herr, pure_eq, mPure]

/-- The 401 recovery, scenario: refresh succeeds but the resend is still 401 —
fall through to the clear-and-reacquire path with the refreshed session and
headers. -/
theorem fetchHandle401_refresh_then401
    (c : Config) (now : ℚ) (o : Oracle) (url : String)
    (H : List (String × String)) (r0 : Response) (s : Session) (k : ℕ)
    (hauto : c.autoToken = true) (h401 : r0.status = 401)
    (rt : JVal) (hrt : s.refreshToken = some rt) (htr : rt.truthy = true)
    (st : ℕ) (rb : JVal) (h1 : o k = ⟨st, some rb⟩) (hst : 200 ≤ st ∧ st ≤ 299)
    (newTok : String) (hat : pySubscript rb "access_token" = .ok (.str newTok))
    (ei : Option ℚ)
    (hei1 : pyIn "expires_in" rb = .ok ei.isSome)
    (hei2 : ∀ q, ei = some q → pySubscript rb "expires_in" = .ok (.num q))
    (r2 : Response) (h2 : o (k + 1) = r2) (hr2 : r2.status = 401) :
    fetchHandle401 c now url H r0 o s k =
      ⟨(fullReacquire c now url
          (setHeader H "Authorization" ("Bearer " ++ newTok)) o
          ⟨some newTok,
           (match ei with
            | some q => now + q
            | none => now + 300),
           s.refreshToken⟩ (k + 2)).res,
       (fullReacquire c now url
          (setHeader H "Authorization" ("Bearer " ++ newTok)) o
          ⟨some newTok,
           (match ei with
            | some q => now + q
            | none => now + 300),
           s.refreshToken⟩ (k + 2)).sess,
       (fullReacquire c now url
          (setHeader H "Authorization" ("Bearer " ++ newTok)) o
          ⟨some newTok,
           (match ei with
            | some q => now + q
            | none => now + 300),
           s.refreshToken⟩ (k + 2)).calls,
       .postRefresh rt ::
       .request "GET" url (setHeader H "Authorization" ("Bearer " ++ newTok)) ::
       (fullReacquire c now url
          (setHeader H "Authorization" ("Bearer " ++ newTok)) o
          ⟨some newTok,
           (match ei with
            | some q => now + q
            | none => now + 300),
           s.refreshToken⟩ (k + 2)).trace⟩ := by
  have hrun := refresh_token_run c now o s k rt hrt htr st rb h1 hst newTok hat
    ei hei1 hei2
  simp [fetchHandle401,
    if_pos (show r0.status = 401 ∧ c.autoToken = true from ⟨h401, hauto⟩),
    bind_eq, mBind, getSession, hrt, htr, pyTry, hrun, netCall, pure_eq, mPure,
    h2, hr2]

/-! ### Every outbound request `fetch` makes uses the GET method -/



theorem traceGET_mPure (a : α) : TraceGET (mPure a) := by
  intro o s k; simp [mPure]

theorem traceGET_mThrow (e : PyErr) : TraceGET (mThrow e : M α) := by
  intro o s k; simp [mThrow]

theorem traceGET_liftExc (x : Except PyErr α) : TraceGET (liftExc x) := by
  intro o s k; simp [liftExc]

theorem traceGET_getSession : TraceGET getSession := by
  intro o s k; simp [getSession]

theorem traceGET_modifySession (f : Session → Session) :
    TraceGET (modifySession f) := by
  intro o s k; simp [modifySession]

theorem traceGET_netCall (ev : Event) (h : eventGET ev = true) :
    TraceGET (netCall ev) := by
  intro o s k; simp [netCall, h]

theorem traceGET_mBind (x : M α) (f : α → M β) (hx : TraceGET x)
    (hf : ∀ a, TraceGET (f a)) : TraceGET (mBind x f) := by
  intro o s k
  simp only [mBind]
  cases hr : (x o s k).res with
  | ok a =>
    simp only [List.all_append]
    have h1 := hx o s k
    have h2 := hf a o (x o s k).sess (x o s k).calls
    simp [h1, h2]
  | error e =>
    exact hx o s k

theorem traceGET_pyTry (body : M α) (handler : PyErr → Option (M α))
    (hb : TraceGET body) (hh : ∀ e m, handler e = some m → TraceGET m) :
    TraceGET (pyTry body handler) := by
  intro o s k
  simp only [pyTry]
  cases hr : (body o s k).res with
  | ok a => exact hb o s k
  | error e =>
    cases hm : handler e with
    | none =>
      simp only [hm]
      exact hb o s k
    | some m =>
      simp only [hm, List.all_append]
      have h1 := hb o s k
      have h2 := hh e m hm o (body o s k).sess (body o s k).calls
      simp [h1, h2]

theorem traceGET_acquireFlow (c : Config) (now : ℚ) :
    TraceGET (acquireFlow c now) := by
  unfold acquireFlow
  simp only [bind_eq, pure_eq]
  repeat'
    first
    | exact traceGET_liftExc _
    | exact traceGET_mPure _
    | exact traceGET_modifySession _
    | exact traceGET_getSession
    | exact traceGET_netCall _ rfl
    | refine traceGET_mBind _ _ ?_ (fun a => ?_)
    | split

theorem traceGET_get_token (c : Config) (now : ℚ) :
    TraceGET (get_token c now) := by
  unfold get_token
  simp only [bind_eq, pure_eq]
  repeat'
    first
    | exact traceGET_acquireFlow c now
    | exact traceGET_mPure _
    | exact traceGET_getSession
    | refine traceGET_mBind _ _ ?_ (fun a => ?_)
    | split

theorem traceGET_refresh_token (c : Config) (now : ℚ) :
    TraceGET (refresh_token c now) := by
  unfold refresh_token
  simp only [bind_eq, pure_eq]
  repeat'
    first
    | exact traceGET_liftExc _
    | exact traceGET_mPure _
    | exact traceGET_modifySession _
    | exact traceGET_getSession
    | exact traceGET_mThrow _
    | exact traceGET_netCall _ rfl
    | refine traceGET_mBind _ _ ?_ (fun a => ?_)
    | split

theorem traceGET_fullReacquire (c : Config) (now : ℚ) (url : String)
    (hs : List (String × String)) : TraceGET (fullReacquire c now url hs) := by
  unfold fullReacquire
  simp only [bind_eq, pure_eq]
  repeat'
    first
    | exact traceGET_get_token c now
    | exact traceGET_mPure _
    | exact traceGET_modifySession _
    | exact traceGET_netCall _ rfl
    | refine traceGET_mBind _ _ ?_ (fun a => ?_)

theorem traceGET_fetchHandle401 (c : Config) (now : ℚ) (url : String)
    (hs : List (String × String)) (r : Response) :
    TraceGET (fetchHandle401 c now url hs r) := by
  unfold fetchHandle401
  simp only [bind_eq, pure_eq]
  repeat'
    first
    | exact traceGET_refresh_token c now
    | exact traceGET_fullReacquire c now url _
    | exact traceGET_mPure _
    | exact traceGET_getSession
    | exact traceGET_netCall _ rfl
    | (cases hm; exact traceGET_mPure _)
    | refine traceGET_mBind _ _ ?_ (fun a => ?_)
    | refine traceGET_pyTry _ _ ?_ (fun e m hm => ?_)
    | split

theorem traceGET_fetchHandle403 (c : Config) (url : String) (after : AfterAuth) :
    TraceGET (fetchHandle403 c url after) := by
  unfold fetchHandle403
  simp only [bind_eq, pure_eq]
  repeat'
    first
    | exact traceGET_liftExc _
    | exact traceGET_mPure _
    | exact traceGET_netCall _ rfl
    | (cases hm; exact traceGET_mPure _)
    | (split at hm
       · cases hm
         exact traceGET_mPure _
       · cases hm)
    | refine traceGET_mBind _ _ ?_ (fun a => ?_)
    | refine traceGET_pyTry _ _ ?_ (fun e m hm => ?_)
    | split

theorem traceGET_fetch (c : Config) (now : ℚ) (url : String)
    (h0 : List (String × String)) : TraceGET (fetch c now url h0) := by
  unfold fetch
  simp only [bind_eq, pure_eq]
  repeat'
    first
    | exact traceGET_get_token c now
    | exact traceGET_fetchHandle401 c now url _ _
    | exact traceGET_fetchHandle403 c url _
    | exact traceGET_mPure _
    | exact traceGET_netCall _ rfl
    | refine traceGET_mBind _ _ ?_ (fun a => ?_)
    | split

/-! ### Claim theorems -/

/-- C8: for every session with no cached refresh token, `refresh_token()`
raises `ValueError` before making any network call (empty trace, call counter
unchanged) and leaves the session state exactly as it was. -/
theorem c8_refresh_without_token_fails_fast (c : Config) (now : ℚ) (o : Oracle)
    (s : Session) (k : ℕ) (h : s.refreshToken = none) :
    refresh_token c now o s k =
      ⟨.error (.valueError "No refresh token available"), s, k, []⟩ :=
  refresh_token_none c now o s k h

/-- C8 witness: a concrete empty session. -/
theorem c8_witness :
    refresh_token ⟨"https://botcha.ai", true, none, none⟩ 1000
      (fun _ => ⟨200, none⟩) ⟨none, 0, none⟩ 0 =
      ⟨.error (.valueError "No refresh token available"), ⟨none, 0, none⟩, 0, []⟩ :=
  c8_refresh_without_token_fails_fast _ _ _ _ _ rfl

/-- C10: every underlying network request that `fetch` records for the
caller's URL — the initial send and every 401- or 403-driven resend — uses
the GET method, for every configuration, oracle, session and header set. -/
theorem c10_fetch_requests_are_get (c : Config) (now : ℚ) (url : String)
    (h0 : List (String × String)) (o : Oracle) (s : Session) (k : ℕ) :
    ((fetch c now url h0 o s k).trace).all eventGET = true :=
  traceGET_fetch c now url h0 o s k

/-- C2: with a cached (truthy) token and cached expiry `e`, `get_token`
makes no network call if and only if `e > now + 300`; on a cache hit it
returns exactly the cached token with untouched state, and at the boundary
`e = now + 300` the token counts as stale and network traffic starts. -/
theorem c2_cache_expiry_boundary (c : Config) (now : ℚ) (o : Oracle)
    (s : Session) (k : ℕ) (t : String) (ht : s.token = some t) (hne : t ≠ "") :
    ((get_token c now o s k).trace = [] ↔ now + 300 < s.tokenExpiresAt)
    ∧ (now + 300 < s.tokenExpiresAt →
        get_token c now o s k = ⟨.ok t, s, k, []⟩)
    ∧ (s.tokenExpiresAt = now + 300 →
        (get_token c now o s k).trace ≠ []) := by
  have hmiss : ∀ hm : ¬ (now + 300 < s.tokenExpiresAt),
      (get_token c now o s k).trace ≠ [] := by
    intro hm
    rw [get_token_miss c now o s k (by
      intro hc
      exact hm hc.2)]
    rcases acquireFlow_trace_cons c now o s k with ⟨rest, hr⟩
    simp [hr]
  refine ⟨⟨?_, ?_⟩, ?_, ?_⟩
  · intro htr
    by_contra hm
    exact hmiss hm htr
  · intro hexp
    rw [get_token_hit c now o s k t ht hne hexp]
  · intro hexp
    exact get_token_hit c now o s k t ht hne hexp
  · intro heq
    apply hmiss
    rw [heq]
    simp

/-- C2 witness: at `now = 1000`, expiry 1301 is a cache hit with no trace and
expiry exactly 1300 (the boundary) triggers network traffic. -/
theorem c2_witness :
    (get_token ⟨"https://botcha.ai", true, none, none⟩ 1000 (fun _ => ⟨200, none⟩)
        ⟨some "tok", 1301, none⟩ 0 =
      ⟨.ok "tok", ⟨some "tok", 1301, none⟩, 0, []⟩)
    ∧ (get_token ⟨"https://botcha.ai", true, none, none⟩ 1000 (fun _ => ⟨200, none⟩)
        ⟨some "tok", 1300, none⟩ 0).trace ≠ [] :=
  ⟨(c2_cache_expiry_boundary _ 1000 _ _ 0 "tok" rfl (by decide)).2.1 (by norm_num),
   (c2_cache_expiry_boundary _ 1000 _ _ 0 "tok" rfl (by decide)).2.2 (by norm_num)⟩

/-- C9: on a successful refresh (2xx response carrying `access_token`), the
cached access token is replaced by the response's token, the expiry becomes
`now + expires_in` (or `now + 300` when `expires_in` is absent), and the
cached refresh token is left exactly as it was — neither rotated nor
cleared. -/
theorem c9_refresh_success_frame (c : Config) (now : ℚ) (o : Oracle)
    (s : Session) (k : ℕ) (rt : JVal) (hrt : s.refreshToken = some rt)
    (htr : rt.truthy = true) (st : ℕ) (rb : JVal)
    (h1 : o k = ⟨st, some rb⟩) (hst : 200 ≤ st ∧ st ≤ 299)
    (newTok : String) (hat : pySubscript rb "access_token" = .ok (.str newTok))
    (ei : Option ℚ)
    (hei1 : pyIn "expires_in" rb = .ok ei.isSome)
    (hei2 : ∀ q, ei = some q → pySubscript rb "expires_in" = .ok (.num q)) :
    (refresh_token c now o s k).res = .ok newTok
    ∧ (refresh_token c now o s k).sess.token = some newTok
    ∧ (refresh_token c now o s k).sess.tokenExpiresAt =
        (match ei with
         | some q => now + q
         | none => now + 300)
    ∧ (refresh_token c now o s k).sess.refreshToken = s.refreshToken := by
  rw [refresh_token_run c now o s k rt hrt htr st rb h1 hst newTok hat ei hei1 hei2]
  exact ⟨rfl, rfl, rfl, rfl⟩

/-- C9 witness: a concrete refresh against a 200 response with
`expires_in = 120`. -/
theorem c9_witness :
    (refresh_token ⟨"https://botcha.ai", true, none, none⟩ 1000
        (fun _ => ⟨200, some (.obj [("access_token", .str "newTok"),
          ("expires_in", .num 120)])⟩)
        ⟨some "oldTok", 900, some (.str "refTok")⟩ 0).res = .ok "newTok"
    ∧ (refresh_token ⟨"https://botcha.ai", true, none, none⟩ 1000
        (fun _ => ⟨200, some (.obj [("access_token", .str "newTok"),
          ("expires_in", .num 120)])⟩)
        ⟨some "oldTok", 900, some (.str "refTok")⟩ 0).sess.tokenExpiresAt = 1120
    ∧ (refresh_token ⟨"https://botcha.ai", true, none, none⟩ 1000
        (fun _ => ⟨200, some (.obj [("access_token", .str "newTok"),
          ("expires_in", .num 120)])⟩)
        ⟨some "oldTok", 900, some (.str "refTok")⟩ 0).sess.refreshToken =
        some (.str "refTok") := by
  have h := c9_refresh_success_frame ⟨"https://botcha.ai", true, none, none⟩ 1000
    (fun _ => ⟨200, some (.obj [("access_token", .str "newTok"),
      ("expires_in", .num 120)])⟩)
    ⟨some "oldTok", 900, some (.str "refTok")⟩ 0 (.str "refTok") rfl (by decide)
    200 (.obj [("access_token", .str "newTok"), ("expires_in", .num 120)]) rfl
    (by decide) "newTok" rfl (some 120) rfl
    (fun q hq => by cases hq; rfl)
  refine ⟨h.1, ?_, h.2.2.2⟩
  rw [h.2.2.1]
  norm_num

/-- C5: for every token, secret, options and clock, `verify_botcha_token`
returns a structured `VerifyResult` and never raises: either a valid result
carrying a payload and no error, or an invalid result carrying an error
message and no payload — expired signatures, invalid signatures, malformed
tokens, missing required claims, type/audience/IP failures and unexpected
decode exceptions all land in the second shape. -/
theorem c5_verify_never_raises (token : JwtToken) (secret : String)
    (options : Option VerifyOptions) (now : ℚ) :
    ((verify_botcha_token token secret options now).valid = true
      ∧ (verify_botcha_token token secret options now).error = none
      ∧ (verify_botcha_token token secret options now).payload.isSome = true)
    ∨ ((verify_botcha_token token secret options now).valid = false
      ∧ (verify_botcha_token token secret options now).payload = none
      ∧ (verify_botcha_token token secret options now).error.isSome = true) := by
  unfold verify_botcha_token
  cases hd : jwtDecode token secret now (audienceParam options)
      ["sub", "iat", "exp", "jti"] with
  | error e => cases e <;> simp
  | ok payload =>
    dsimp only
    split
    · simp
    · split
      · simp
      · simp


/-- C6 counterexample: requiring audience `https://required-aud.example`
against a token whose audience is `https://token-aud.example` yields the fixed
error `Invalid token: Audience doesn't match`, which names neither the
required audience value nor the token's audience value — refuting the claim
that the error names both. -/
theorem c6_counterexample :
    verify_botcha_token (.signed "secret-1" c6Claims) "secret-1"
        (some ⟨some "https://required-aud.example", none⟩) 2000 =
      ⟨false, none, some ("Invalid token: Audience doesn" ++ sq ++ "t match")⟩
    ∧ strContains ("Invalid token: Audience doesn" ++ sq ++ "t match")
        "https://required-aud.example" = false
    ∧ strContains ("Invalid token: Audience doesn" ++ sq ++ "t match")
        "https://token-aud.example" = false :=
  ⟨rfl, rfl, rfl⟩

/-- C6 (amended): when the caller requires audience `reqAud` and an
otherwise-valid token carries a different (truthy, string) audience `tokAud`,
`verify_botcha_token` returns an invalid result whose error is the fixed
PyJWT message `Invalid token: Audience doesn't match` — an audience-mismatch
classification that does not in general name either value. -/
theorem c6_audience_mismatch_fixed_message
    (secret : String) (claims : List (String × JVal)) (now : ℚ)
    (reqAud tokAud : String) (ip : Option String)
    (hreq : reqAud ≠ "")
    (hfind : (["sub", "iat", "exp", "jti"].find?
        (fun cl => (claimsGet claims cl).isNone)) = none)
    (iatV : JVal) (hiat : claimsGet claims "iat" = some iatV)
    (iatN : ℤ) (hiatN : pyInt iatV = some iatN)
    (hnbf : claimsGet claims "nbf" = none)
    (expV : JVal) (hexp : claimsGet claims "exp" = some expV)
    (expN : ℤ) (hexpN : pyInt expV = some expN) (hlive : now < (expN : ℚ))
    (haud : claimsGet claims "aud" = some (.str tokAud))
    (htr : tokAud ≠ "") (hne : tokAud ≠ reqAud) :
    verify_botcha_token (.signed secret claims) secret
        (some ⟨some reqAud, ip⟩) now =
      ⟨false, none, some ("Invalid token: Audience doesn" ++ sq ++ "t match")⟩ := by
  have hnotle : ¬ ((expN : ℚ) ≤ now) := not_le.mpr hlive
  simp [verify_botcha_token, jwtDecode, audienceParam, validateAud, intClaim,
    hreq, hfind, hiat, hiatN, hnbf, hexp, hexpN, hnotle, haud, JVal.truthy,
    htr, hne]
  decide

/-- C6 witness: the amended theorem at the counterexample's concrete token. -/
theorem c6_witness :
    verify_botcha_token (.signed "secret-1" c6Claims) "secret-1"
        (some ⟨some "https://required-aud.example", none⟩) 2000 =
      ⟨false, none, some ("Invalid token: Audience doesn" ++ sq ++ "t match")⟩ :=
  c6_audience_mismatch_fixed_message "secret-1" c6Claims 2000
    "https://required-aud.example" "https://token-aud.example" none
    (by decide) rfl (.num 1000) rfl 1000 (by decide) rfl (.num 4000) rfl 4000
    (by decide) (by norm_num) rfl (by decide) (by decide)

/-- C7: on every successful token exchange (run on a cache miss), the cached
expiry follows exactly the spec's three-way rule: `now + expires_in` when the
response states one; otherwise the absolute `exp` claim decoded from the
token's middle dot-separated segment (base64url, `=` padding restored to a
multiple of 4); otherwise — fewer than two segments, decoding failure, or a
missing/unusable `exp` — `now + 300`. -/
theorem c7_expiry_rule
    (c : Config) (now : ℚ) (o : Oracle) (s : Session) (k : ℕ)
    (hs : s.token = none)
    (st1 st2 : ℕ) (cb vb cidV probsV tlV vvV stmV : JVal)
    (probs : List ℤ) (newTok : String) (rtv : Option JVal) (ei : Option ℚ)
    (h1 : o k = ⟨st1, some cb⟩) (h1s : 200 ≤ st1 ∧ st1 ≤ 299)
    (hcid : pySubscript cb "id" = .ok cidV)
    (hpr : pySubscript cb "problems" = .ok probsV)
    (htl : pySubscript cb "timeLimit" = .ok tlV)
    (hprobs : jvalProblems probsV = .ok probs)
    (h2 : o (k + 1) = ⟨st2, some vb⟩) (h2s : 200 ≤ st2 ∧ st2 ≤ 299)
    (hvv : pySubscript vb "verified" = .ok vvV)
    (htok : pySubscript vb "token" = .ok (.str newTok))
    (hstm : pySubscript vb "solveTimeMs" = .ok stmV)
    (hrt1 : pyIn "refresh_token" vb = .ok rtv.isSome)
    (hrt2 : ∀ rv, rtv = some rv → pySubscript vb "refresh_token" = .ok rv)
    (hei1 : pyIn "expires_in" vb = .ok ei.isSome)
    (hei2 : ∀ q, ei = some q → pySubscript vb "expires_in" = .ok (.num q)) :
    (get_token c now o s k).res = .ok newTok
    ∧ (get_token c now o s k).sess.tokenExpiresAt =
        specTokenExpiry ei newTok now := by
  have hmiss : get_token c now o s k = acquireFlow c now o s k :=
    get_token_miss c now o s k (by simp [optTruthy, hs])
  rw [hmiss, acquireFlow_run c now o s k st1 st2 cb vb cidV probsV tlV vvV
    stmV probs newTok rtv ei h1 h1s hcid hpr htl hprobs h2 h2s hvv htok hstm
    hrt1 hrt2 hei1 hei2]
  refine ⟨rfl, ?_⟩
  match ei with
  | some q => simp [specTokenExpiry]
  | none => simp [specTokenExpiry, jwtFallbackExpiry_eq]


/-- C7 witness: with no `expires_in`, the stored expiry is the token's own
decoded `exp`, 1700000600. -/
theorem c7_witness :
    (get_token ⟨"https://botcha.ai", true, none, none⟩ 1000 c7Oracle
        ⟨none, 0, none⟩ 0).res = .ok "hh.eyJleHAiOjE3MDAwMDA2MDB9.sig"
    ∧ (get_token ⟨"https://botcha.ai", true, none, none⟩ 1000 c7Oracle
        ⟨none, 0, none⟩ 0).sess.tokenExpiresAt = 1700000600 := by
  have h := c7_expiry_rule ⟨"https://botcha.ai", true, none, none⟩ 1000
    c7Oracle ⟨none, 0, none⟩ 0 rfl 200 200
    (.obj [("id", .str "c1"), ("problems", .arr [.num 123456]),
      ("timeLimit", .num 500)])
    (.obj [("verified", .bool true),
      ("token", .str "hh.eyJleHAiOjE3MDAwMDA2MDB9.sig"),
      ("solveTimeMs", .num 42)])
    (.str "c1") (.arr [.num 123456]) (.num 500) (.bool true) (.num 42)
    [123456] "hh.eyJleHAiOjE3MDAwMDA2MDB9.sig" none none
    rfl (by decide) rfl rfl rfl rfl rfl (by decide) rfl rfl rfl rfl
    (fun rv h => nomatch h) rfl (fun q h => nomatch h)
  refine ⟨h.1, ?_⟩
  rw [h.2]
  decide


/-- C1 counterexample: two `get_token` calls in immediate succession (same
clock instant), the first of which acquires a fresh token with
`expires_in = 300`.  Because the stored expiry `now + 300` is not strictly
greater than `now + 300`, the second call repeats the full network exchange:
the pair issues four network calls (two challenge GETs, two verify POSTs)
instead of one exchange, and returns `tokenB`, not the identical string
`tokenA` — refuting the claim for this session. -/
theorem c1_counterexample :
    ((mBind (get_token ⟨"https://botcha.ai", true, none, none⟩ 1000)
        (fun _ => get_token ⟨"https://botcha.ai", true, none, none⟩ 1000))
        c1Oracle ⟨none, 0, none⟩ 0).res = .ok "tokenB"
    ∧ ((mBind (get_token ⟨"https://botcha.ai", true, none, none⟩ 1000)
        (fun _ => get_token ⟨"https://botcha.ai", true, none, none⟩ 1000))
        c1Oracle ⟨none, 0, none⟩ 0).trace.length = 4
    ∧ "tokenB" ≠ "tokenA" := by
  have hm1 : get_token ⟨"https://botcha.ai", true, none, none⟩ 1000 c1Oracle
      ⟨none, 0, none⟩ 0 =
      acquireFlow ⟨"https://botcha.ai", true, none, none⟩ 1000 c1Oracle
        ⟨none, 0, none⟩ 0 :=
    get_token_miss _ _ _ _ _ (by simp [optTruthy])
  have h1 := acquireFlow_run ⟨"https://botcha.ai", true, none, none⟩ 1000
    c1Oracle ⟨none, 0, none⟩ 0 200 200
    (.obj [("id", .str "c1"), ("problems", .arr [.num 111111]),
      ("timeLimit", .num 500)])
    (.obj [("verified", .bool true), ("token", .str "tokenA"),
      ("solveTimeMs", .num 42), ("expires_in", .num 300)])
    (.str "c1") (.arr [.num 111111]) (.num 500) (.bool true) (.num 42)
    [111111] "tokenA" none (some 300)
    rfl (by decide) rfl rfl rfl rfl rfl (by decide) rfl rfl rfl rfl
    (fun rv h => nomatch h) rfl (fun q h => by cases h; rfl)
  have hm2 : get_token ⟨"https://botcha.ai", true, none, none⟩ 1000 c1Oracle
      ⟨some "tokenA", 1000 + 300, none⟩ 2 =
      acquireFlow ⟨"https://botcha.ai", true, none, none⟩ 1000 c1Oracle
        ⟨some "tokenA", 1000 + 300, none⟩ 2 :=
    get_token_miss _ _ _ _ _ (by
      intro hc
      exact absurd hc.2 (by norm_num))
  have h2 := acquireFlow_run ⟨"https://botcha.ai", true, none, none⟩ 1000
    c1Oracle ⟨some "tokenA", 1000 + 300, none⟩ 2 200 200
    (.obj [("id", .str "c2"), ("problems", .arr [.num 222222]),
      ("timeLimit", .num 500)])
    (.obj [("verified", .bool true), ("token", .str "tokenB"),
      ("solveTimeMs", .num 42), ("expires_in", .num 300)])
    (.str "c2") (.arr [.num 222222]) (.num 500) (.bool true) (.num 42)
    [222222] "tokenB" none (some 300)
    rfl (by decide) rfl rfl rfl rfl rfl (by decide) rfl rfl rfl rfl
    (fun rv h => nomatch h) rfl (fun q h => by cases h; rfl)
  rw [← hm1] at h1
  rw [← hm2] at h2
  refine ⟨?_, ?_, by decide⟩
  · simp [mBind, h1, h2]
  · simp [mBind, h1, h2]

/-- C1 (amended): two `get_token` calls in immediate succession issue exactly
one network exchange — the second returning the identical token string with
no network call and no state change — provided the freshly acquired token is
non-empty and its recorded expiry exceeds `now + 300` (e.g. the exchange
stated `expires_in > 300`); with the 300-second refresh buffer equal to the
nominal 300-second token lifetime, a fresh token at `expires_in ≤ 300` is
already stale. -/
theorem c1_cache_idempotent_when_fresh (c : Config) (now : ℚ) (o : Oracle)
    (s : Session) (k : ℕ) (t1 : String)
    (h1 : (get_token c now o s k).res = .ok t1)
    (ht : (get_token c now o s k).sess.token = some t1)
    (hne : t1 ≠ "")
    (hexp : now + 300 < (get_token c now o s k).sess.tokenExpiresAt) :
    (mBind (get_token c now) (fun _ => get_token c now)) o s k =
      ⟨.ok t1, (get_token c now o s k).sess, (get_token c now o s k).calls,
       (get_token c now o s k).trace⟩ := by
  have hhit := get_token_hit c now o ((get_token c now o s k).sess)
    ((get_token c now o s k).calls) t1 ht hne hexp
  simp [mBind, h1, hhit]

/-- C1 witness: with `expires_in = 600` the second immediate call is a silent
cache hit returning the same token. -/
theorem c1_witness :
    (mBind (get_token ⟨"https://botcha.ai", true, none, none⟩ 1000)
        (fun _ => get_token ⟨"https://botcha.ai", true, none, none⟩ 1000))
        (fun n => if n = 0 then
          ⟨200, some (.obj [("id", .str "c1"), ("problems", .arr [.num 111111]),
            ("timeLimit", .num 500)])⟩
        else
          ⟨200, some (.obj [("verified", .bool true), ("token", .str "tokenA"),
            ("solveTimeMs", .num 42), ("expires_in", .num 600)])⟩)
        ⟨none, 0, none⟩ 0 =
      ⟨.ok "tokenA",
       (get_token ⟨"https://botcha.ai", true, none, none⟩ 1000
        (fun n => if n = 0 then
          ⟨200, some (.obj [("id", .str "c1"), ("problems", .arr [.num 111111]),
            ("timeLimit", .num 500)])⟩
        else
          ⟨200, some (.obj [("verified", .bool true), ("token", .str "tokenA"),
            ("solveTimeMs", .num 42), ("expires_in", .num 600)])⟩)
        ⟨none, 0, none⟩ 0).sess,
       (get_token ⟨"https://botcha.ai", true, none, none⟩ 1000
        (fun n => if n = 0 then
          ⟨200, some (.obj [("id", .str "c1"), ("problems", .arr [.num 111111]),
            ("timeLimit", .num 500)])⟩
        else
          ⟨200, some (.obj [("verified", .bool true), ("token", .str "tokenA"),
            ("solveTimeMs", .num 42), ("expires_in", .num 600)])⟩)
        ⟨none, 0, none⟩ 0).calls,
       (get_token ⟨"https://botcha.ai", true, none, none⟩ 1000
        (fun n => if n = 0 then
          ⟨200, some (.obj [("id", .str "c1"), ("problems", .arr [.num 111111]),
            ("timeLimit", .num 500)])⟩
        else
          ⟨200, some (.obj [("verified", .bool true), ("token", .str "tokenA"),
            ("solveTimeMs", .num 42), ("expires_in", .num 600)])⟩)
        ⟨none, 0, none⟩ 0).trace⟩ :=
  c1_cache_idempotent_when_fresh _ 1000 _ _ 0 "tokenA" rfl rfl (by decide)
    (by exact (by norm_num : (1000 : ℚ) + 300 < 1000 + 600))


/-- C4 (code bug, evaluated at the failing input): on a 403 whose JSON body
is `obj [challenge ↦ 5]`, `fetch` raises `TypeError` (the membership test
`"problems" in body["challenge"]` on a non-container raises `TypeError`,
which the `except (json.JSONDecodeError, KeyError)` clause does not catch)
instead of returning the original 403 response unmodified; the trace shows no
retry was issued. -/
theorem c4_nonobject_challenge_raises :
    (fetch ⟨"https://botcha.ai", false, none, none⟩ 1000
        "https://api.example.com/data" [] c4Oracle ⟨none, 0, none⟩ 0).res =
      .error .typeError
    ∧ (fetch ⟨"https://botcha.ai", false, none, none⟩ 1000
        "https://api.example.com/data" [] c4Oracle ⟨none, 0, none⟩ 0).trace =
      [.request "GET" "https://api.example.com/data" []] :=
  ⟨rfl, rfl⟩

/-- C3: the 401 recovery policy of `fetch` with auto_token enabled and a
fresh cached token, in its four scenarios.
(1) With a cached refresh token, refresh is attempted first; when it succeeds
and the resend is no longer 401, that response is returned after exactly one
refresh POST and one resend.  (2) With no refresh token cached, the session
is cleared and exactly one full challenge flow (GET + POST) and one more
resend happen; that final response is returned with no further 401-driven
retry (401 included, as long as it is not a 403 triggering the separate
inline-challenge handler).  (3) The same full-reacquisition tail runs when
the refresh call itself fails (non-2xx).  (4) And when refresh succeeds but
the resend is still 401.  In (2)–(4) the final session is exactly the one
the challenge flow builds from a cleared session. -/
theorem c3_fetch_401_recovery_policy :
    (∀ (c : Config) (now : ℚ) (o : Oracle) (url : String)
      (h0 : List (String × String)) (s : Session) (k : ℕ) (t : String)
      (rt : JVal) (st : ℕ) (rb : JVal) (newTok : String) (ei : Option ℚ)
      (r2 : Response),
      c.autoToken = true →
      s.token = some t → t ≠ "" → now + 300 < s.tokenExpiresAt →
      (o k).status = 401 →
      s.refreshToken = some rt → rt.truthy = true →
      o (k + 1) = ⟨st, some rb⟩ → 200 ≤ st ∧ st ≤ 299 →
      pySubscript rb "access_token" = .ok (.str newTok) →
      pyIn "expires_in" rb = .ok ei.isSome →
      (∀ q, ei = some q → pySubscript rb "expires_in" = .ok (.num q)) →
      o (k + 2) = r2 → r2.status ≠ 401 →
      fetch c now url h0 o s k =
        ⟨.ok r2,
         ⟨some newTok,
          (match ei with
           | some q => now + q
           | none => now + 300),
          s.refreshToken⟩,
         k + 3,
         [.request "GET" url (setHeader h0 "Authorization" ("Bearer " ++ t)),
          .postRefresh rt,
          .request "GET" url (setHeader
            (setHeader h0 "Authorization" ("Bearer " ++ t))
            "Authorization" ("Bearer " ++ newTok))]⟩)
    ∧
    (∀ (c : Config) (now : ℚ) (o : Oracle) (url : String)
      (h0 : List (String × String)) (s : Session) (k : ℕ) (t : String)
      (st1 st2 : ℕ) (cb vb cidV probsV tlV vvV stmV : JVal)
      (probs : List ℤ) (newTok : String) (rtv : Option JVal) (ei : Option ℚ)
      (r3 : Response),
      c.autoToken = true →
      s.token = some t → t ≠ "" → now + 300 < s.tokenExpiresAt →
      (o k).status = 401 →
      s.refreshToken = none →
      o (k + 1) = ⟨st1, some cb⟩ → 200 ≤ st1 ∧ st1 ≤ 299 →
      pySubscript cb "id" = .ok cidV →
      pySubscript cb "problems" = .ok probsV →
      pySubscript cb "timeLimit" = .ok tlV →
      jvalProblems probsV = .ok probs →
      o (k + 2) = ⟨st2, some vb⟩ → 200 ≤ st2 ∧ st2 ≤ 299 →
      pySubscript vb "verified" = .ok vvV →
      pySubscript vb "token" = .ok (.str newTok) →
      pySubscript vb "solveTimeMs" = .ok stmV →
      pyIn "refresh_token" vb = .ok rtv.isSome →
      (∀ rv, rtv = some rv → pySubscript vb "refresh_token" = .ok rv) →
      pyIn "expires_in" vb = .ok ei.isSome →
      (∀ q, ei = some q → pySubscript vb "expires_in" = .ok (.num q)) →
      o (k + 3) = r3 → r3.status ≠ 403 →
      fetch c now url h0 o s k =
        ⟨.ok r3,
         ⟨some newTok,
          (match ei with
           | some q => now + q
           | none => jwtFallbackExpiry newTok now),
          (match rtv with
           | some rv => some rv
           | none => none)⟩,
         k + 4,
         [.request "GET" url (setHeader h0 "Authorization" ("Bearer " ++ t)),
          .getChallenge (tokenUrl c),
          .postVerify (verifyPayloadFor c cidV (solve_botcha probs)),
          .request "GET" url (setHeader
            (setHeader h0 "Authorization" ("Bearer " ++ t))
            "Authorization" ("Bearer " ++ newTok))]⟩)
    ∧
    (∀ (c : Config) (now : ℚ) (o : Oracle) (url : String)
      (h0 : List (String × String)) (s : Session) (k : ℕ) (t : String)
      (rt : JVal) (r1 : Response)
      (st1 st2 : ℕ) (cb vb cidV probsV tlV vvV stmV : JVal)
      (probs : List ℤ) (newTok : String) (rtv : Option JVal) (ei : Option ℚ)
      (r4 : Response),
      c.autoToken = true →
      s.token = some t → t ≠ "" → now + 300 < s.tokenExpiresAt →
      (o k).status = 401 →
      s.refreshToken = some rt → rt.truthy = true →
      o (k + 1) = r1 → ¬ (200 ≤ r1.status ∧ r1.status ≤ 299) →
      o (k + 2) = ⟨st1, some cb⟩ → 200 ≤ st1 ∧ st1 ≤ 299 →
      pySubscript cb "id" = .ok cidV →
      pySubscript cb "problems" = .ok probsV →
      pySubscript cb "timeLimit" = .ok tlV →
      jvalProblems probsV = .ok probs →
      o (k + 3) = ⟨st2, some vb⟩ → 200 ≤ st2 ∧ st2 ≤ 299 →
      pySubscript vb "verified" = .ok vvV →
      pySubscript vb "token" = .ok (.str newTok) →
      pySubscript vb "solveTimeMs" = .ok stmV →
      pyIn "refresh_token" vb = .ok rtv.isSome →
      (∀ rv, rtv = some rv → pySubscript vb "refresh_token" = .ok rv) →
      pyIn "expires_in" vb = .ok ei.isSome →
      (∀ q, ei = some q → pySubscript vb "expires_in" = .ok (.num q)) →
      o (k + 4) = r4 → r4.status ≠ 403 →
      fetch c now url h0 o s k =
        ⟨.ok r4,
         ⟨some newTok,
          (match ei with
           | some q => now + q
           | none => jwtFallbackExpiry newTok now),
          (match rtv with
           | some rv => some rv
           | none => none)⟩,
         k + 5,
         [.request "GET" url (setHeader h0 "Authorization" ("Bearer " ++ t)),
          .postRefresh rt,
          .getChallenge (tokenUrl c),
          .postVerify (verifyPayloadFor c cidV (solve_botcha probs)),
          .request "GET" url (setHeader
            (setHeader h0 "Authorization" ("Bearer " ++ t))
            "Authorization" ("Bearer " ++ newTok))]⟩)
    ∧
    (∀ (c : Config) (now : ℚ) (o : Oracle) (url : String)
      (h0 : List (String × String)) (s : Session) (k : ℕ) (t : String)
      (rt : JVal) (st : ℕ) (rb : JVal) (newTok1 : String) (ei1 : Option ℚ)
      (r2 : Response)
      (st1 st2 : ℕ) (cb vb cidV probsV tlV vvV stmV : JVal)
      (probs : List ℤ) (newTok2 : String) (rtv2 : Option JVal) (ei2 : Option ℚ)
      (r5 : Response),
      c.autoToken = true →
      s.token = some t → t ≠ "" → now + 300 < s.tokenExpiresAt →
      (o k).status = 401 →
      s.refreshToken = some rt → rt.truthy = true →
      o (k + 1) = ⟨st, some rb⟩ → 200 ≤ st ∧ st ≤ 299 →
      pySubscript rb "access_token" = .ok (.str newTok1) →
      pyIn "expires_in" rb = .ok ei1.isSome →
      (∀ q, ei1 = some q → pySubscript rb "expires_in" = .ok (.num q)) →
      o (k + 2) = r2 → r2.status = 401 →
      o (k + 3) = ⟨st1, some cb⟩ → 200 ≤ st1 ∧ st1 ≤ 299 →
      pySubscript cb "id" = .ok cidV →
      pySubscript cb "problems" = .ok probsV →
      pySubscript cb "timeLimit" = .ok tlV →
      jvalProblems probsV = .ok probs →
      o (k + 4) = ⟨st2, some vb⟩ → 200 ≤ st2 ∧ st2 ≤ 299 →
      pySubscript vb "verified" = .ok vvV →
      pySubscript vb "token" = .ok (.str newTok2) →
      pySubscript vb "solveTimeMs" = .ok stmV →
      pyIn "refresh_token" vb = .ok rtv2.isSome →
      (∀ rv, rtv2 = some rv → pySubscript vb "refresh_token" = .ok rv) →
      pyIn "expires_in" vb = .ok ei2.isSome →
      (∀ q, ei2 = some q → pySubscript vb "expires_in" = .ok (.num q)) →
      o (k + 5) = r5 → r5.status ≠ 403 →
      fetch c now url h0 o s k =
        ⟨.ok r5,
         ⟨some newTok2,
          (match ei2 with
           | some q => now + q
           | none => jwtFallbackExpiry newTok2 now),
          (match rtv2 with
           | some rv => some rv
           | none => none)⟩,
         k + 6,
         [.request "GET" url (setHeader h0 "Authorization" ("Bearer " ++ t)),
          .postRefresh rt,
          .request "GET" url (setHeader
            (setHeader h0 "Authorization" ("Bearer " ++ t))
            "Authorization" ("Bearer " ++ newTok1)),
          .getChallenge (tokenUrl c),
          .postVerify (verifyPayloadFor c cidV (solve_botcha probs)),
          .request "GET" url (setHeader (setHeader
            (setHeader h0 "Authorization" ("Bearer " ++ t))
            "Authorization" ("Bearer " ++ newTok1))
            "Authorization" ("Bearer " ++ newTok2))]⟩) := by
  refine ⟨?_, ?_, ?_, ?_⟩
  · intro c now o url h0 s k t rt st rb newTok ei r2 hauto ht hne hexp h401
      hrt htr h1 hst hat hei1 hei2 h2 hr2
    have hhit := get_token_hit c now o s k t ht hne hexp
    have hH := fetchHandle401_refresh_success c now o url
      (setHeader h0 "Authorization" ("Bearer " ++ t)) (o k) s (k + 1) hauto
      h401 rt hrt htr st rb h1 hst newTok hat ei hei1 hei2 r2 h2 hr2
    simp [fetch, bind_eq, mBind, hauto, hhit, netCall, pure_eq, mPure, hH,
      fetchHandle403_early]
    cases ei <;> simp
  · intro c now o url h0 s k t st1 st2 cb vb cidV probsV tlV vvV stmV probs
      newTok rtv ei r3 hauto ht hne hexp h401 hrtn h1 h1s hcid hpr htl hprobs
      h2 h2s hvv htok hstm hrt1 hrt2 hei1 hei2 h3 hr3
    have hhit := get_token_hit c now o s k t ht hne hexp
    have hB := fetchHandle401_noRefresh c now o url
      (setHeader h0 "Authorization" ("Bearer " ++ t)) (o k) s (k + 1) hauto
      h401 (Or.inl hrtn)
    have hFR := fullReacquire_run c now o url
      (setHeader h0 "Authorization" ("Bearer " ++ t)) s (k + 1) st1 st2 cb vb
      cidV probsV tlV vvV stmV probs newTok rtv ei h1 h1s hcid hpr htl hprobs
      h2 h2s hvv htok hstm hrt1 hrt2 hei1 hei2
    rw [hFR] at hB
    rw [h3] at hB
    have h403 := fetchHandle403_non403 c url r3
      (setHeader (setHeader h0 "Authorization" ("Bearer " ++ t))
        "Authorization" ("Bearer " ++ newTok)) hr3
    simp [fetch, bind_eq, mBind, hauto, hhit, netCall, pure_eq, mPure, hB,
      h403]
    cases ei <;> cases rtv <;> simp
  · intro c now o url h0 s k t rt r1 st1 st2 cb vb cidV probsV tlV vvV stmV
      probs newTok rtv ei r4 hauto ht hne hexp h401 hrt htr h1 hbad h2 h2s
      hcid hpr htl hprobs h3 h3s hvv htok hstm hrt1 hrt2 hei1 hei2 h4 hr4
    have hhit := get_token_hit c now o s k t ht hne hexp
    have hC := fetchHandle401_refresh_err c now o url
      (setHeader h0 "Authorization" ("Bearer " ++ t)) (o k) s (k + 1) hauto
      h401 rt hrt htr r1 h1 hbad
    have hFR := fullReacquire_run c now o url
      (setHeader h0 "Authorization" ("Bearer " ++ t)) s (k + 2) st1 st2 cb vb
      cidV probsV tlV vvV stmV probs newTok rtv ei h2 h2s hcid hpr htl hprobs
      h3 h3s hvv htok hstm hrt1 hrt2 hei1 hei2
    rw [hFR] at hC
    rw [h4] at hC
    have h403 := fetchHandle403_non403 c url r4
      (setHeader (setHeader h0 "Authorization" ("Bearer " ++ t))
        "Authorization" ("Bearer " ++ newTok)) hr4
    simp [fetch, bind_eq, mBind, hauto, hhit, netCall, pure_eq, mPure, hC,
      h403]
    cases ei <;> cases rtv <;> simp
  · intro c now o url h0 s k t rt st rb newTok1 ei1 r2 st1 st2 cb vb cidV
      probsV tlV vvV stmV probs newTok2 rtv2 ei2 r5 hauto ht hne hexp h401
      hrt htr h1 hst hat hei11 hei12 h2 hr2 h3 h3s hcid hpr htl hprobs h4 h4s
      hvv htok hstm hrt1 hrt2 hei21 hei22 h5 hr5
    have hhit := get_token_hit c now o s k t ht hne hexp
    have h403 := fetchHandle403_non403 c url r5
      (setHeader (setHeader (setHeader h0 "Authorization" ("Bearer " ++ t))
        "Authorization" ("Bearer " ++ newTok1))
        "Authorization" ("Bearer " ++ newTok2)) hr5
    cases ei1 with
    | none =>
      have hD := fetchHandle401_refresh_then401 c now o url
        (setHeader h0 "Authorization" ("Bearer " ++ t)) (o k) s (k + 1) hauto
        h401 rt hrt htr st rb h1 hst newTok1 hat none hei11 hei12 r2 h2 hr2
      have hFR := fullReacquire_run c now o url
        (setHeader (setHeader h0 "Authorization" ("Bearer " ++ t))
          "Authorization" ("Bearer " ++ newTok1))
        ⟨some newTok1, now + 300, s.refreshToken⟩ (k + 3) st1 st2 cb vb cidV
        probsV tlV vvV stmV probs newTok2 rtv2 ei2 h3 h3s hcid hpr htl hprobs
        h4 h4s hvv htok hstm hrt1 hrt2 hei21 hei22
      simp [fetch, bind_eq, mBind, hauto, hhit, netCall, pure_eq, mPure, hD,
        hFR, h5, h403]
      cases ei2 <;> cases rtv2 <;> simp
    | some q1 =>
      have hD := fetchHandle401_refresh_then401 c now o url
        (setHeader h0 "Authorization" ("Bearer " ++ t)) (o k) s (k + 1) hauto
        h401 rt hrt htr st rb h1 hst newTok1 hat (some q1) hei11 hei12 r2 h2 hr2
      have hFR := fullReacquire_run c now o url
        (setHeader (setHeader h0 "Authorization" ("Bearer " ++ t))
          "Authorization" ("Bearer " ++ newTok1))
        ⟨some newTok1, now + q1, s.refreshToken⟩ (k + 3) st1 st2 cb vb cidV
        probsV tlV vvV stmV probs newTok2 rtv2 ei2 h3 h3s hcid hpr htl hprobs
        h4 h4s hvv htok hstm hrt1 hrt2 hei21 hei22
      simp [fetch, bind_eq, mBind, hauto, hhit, netCall, pure_eq, mPure, hD,
        hFR, h5, h403]
      cases ei2 <;> cases rtv2 <;> simp


/-- C3 witness: the refresh-first scenario at a concrete 401 — one refresh
POST, one resend, and the 200 resend is returned after three network calls. -/
theorem c3_witness :
    (fetch ⟨"https://botcha.ai", true, none, none⟩ 1000
      "https://api.example.com/d" [] c3wOracle
      ⟨some "oldTok", 2000, some (.str "r1")⟩ 0).res = .ok ⟨200, none⟩
    ∧ (fetch ⟨"https://botcha.ai", true, none, none⟩ 1000
      "https://api.example.com/d" [] c3wOracle
      ⟨some "oldTok", 2000, some (.str "r1")⟩ 0).calls = 3 := by
  have h := c3_fetch_401_recovery_policy.1 ⟨"https://botcha.ai", true, none, none⟩
    1000 c3wOracle "https://api.example.com/d" []
    ⟨some "oldTok", 2000, some (.str "r1")⟩ 0 "oldTok" (.str "r1") 200
    (.obj [("access_token", .str "newTok"), ("expires_in", .num 600)])
    "newTok" (some 600) ⟨200, none⟩ rfl rfl (by decide) (by norm_num) rfl rfl
    (by decide) rfl (by decide) rfl rfl (fun q hq => by cases hq; rfl) rfl
    (by decide)
  exact ⟨by rw [h], by rw [h]⟩

end Botcha
